import Mathlib

/-!
# gooddrive: the simulation core of `game.go`

A shallow embedding of the stateful part of `src/game.go` (`Reset`, `Update`,
`updateCarPhysics`, `updateObstacles`, `generateObstacles`, `checkCollisions`)
and theorems about it.

Modelling conventions.

* `float64` values are modelled by exact rationals (`ℚ`): finite values, no
  rounding, no NaN or infinities.  Every arithmetic expression of the source is
  kept in the shape the source writes it.
* Where the rounding of `float64` decides a statement (the iterated speed of
  C10), `updateCarPhysics` is embedded a second time with the rounding made
  explicit (`Game.updateCarPhysicsRounded`), and `roundF64` is the rounding of
  IEEE 754 binary64.
* `*Game` methods become functions `Game → Game`; the pointers `g.Car` and the
  elements of `g.Obstacles` are never aliased, so they are embedded by value.
* `Keys map[string]bool` is the lookup function of the map (a missing key reads
  as `false`, as in Go).
* The three draws that `generateObstacles` takes from `math/rand` are an
  explicit argument (`Draw`).
* The `js.Value` fields, `LastFrame`, the rendering code and the `println`
  debugging output carry no simulation state and are left out.
-/

namespace GoodDrive

/-! ## Constants (`const (...)` block of `game.go`) -/

/-- Canvas width, an untyped integer constant in the source. -/
def canvasWidth : Int := 800
/-- Canvas height, an untyped integer constant in the source. -/
def canvasHeight : Int := 600
/-- Per-call multiplicative friction factor `0.95`. -/
def friction : ℚ := 95 / 100
/-- Road width, an untyped integer constant in the source. -/
def roadWidth : Int := 600
/-- Number of lanes. -/
def laneCount : Int := 3
/-- Game speed at the start of a session. -/
def initialGameSpeed : ℚ := 5
/-- The constant `maxGameSpeed`. -/
def maxGameSpeed : ℚ := 15
/-- The constant `gameSpeedIncrement = 0.001`. -/
def gameSpeedIncrement : ℚ := 1 / 1000

/-! ## Data model -/

/-- The player's vehicle (`type Car struct`). -/
structure Car where
  X : ℚ
  Y : ℚ
  Width : ℚ
  Height : ℚ
  Speed : ℚ
  Acceleration : ℚ
  Steering : ℚ
  MaxSpeed : ℚ
  Crashed : Bool

/-- An object on the road (`type Obstacle struct`); `Typ` is the field `Type`. -/
structure Obstacle where
  X : ℚ
  Y : ℚ
  Width : ℚ
  Height : ℚ
  Typ : String
  Active : Bool
deriving DecidableEq

/-- The game state (`type Game struct`) without the `js.Value` handles and
`LastFrame`. -/
structure Game where
  Car : Car
  Obstacles : List Obstacle
  GameSpeed : ℚ
  Distance : ℚ
  Score : Int
  GameOver : Bool
  Keys : String → Bool

/-- The outcome of the calls to `math/rand` made by one `generateObstacles`:
`rand.Float64()`, `rand.Intn(len(obstacleTypes))` and `rand.Intn(laneCount)`. -/
structure Draw where
  r : ℚ
  typeIdx : Fin 2
  lane : Fin 3

/-- The Go conversion `int(x)` of a `float64`: truncation toward zero.  Outside
the range of the 64-bit `int` the Go result is implementation-dependent; the
model returns the least `int` there, and the theorems about `Score` assume the
value is in range. -/
def intOfFloat (x : ℚ) : Int :=
  let t := Int.tdiv x.num (x.den : Int)
  if -(2 : Int) ^ 63 ≤ t ∧ t < (2 : Int) ^ 63 then t else -(2 : Int) ^ 63

/-! ## Operations -/

/-- The car built by `NewGame`. -/
def newCar : Car :=
  { X := ((canvasWidth / 2 : Int) : ℚ)
    Y := ((canvasHeight - 100 : Int) : ℚ)
    Width := 50
    Height := 80
    Speed := 0
    Acceleration := 0
    Steering := 0
    MaxSpeed := 10
    Crashed := false }

/-- No key held: the empty map `make(map[string]bool)`. -/
def noKeys : String → Bool := fun _ => false

/-- The simulation state built by `NewGame`. -/
def NewGame : Game :=
  { Car := newCar
    Obstacles := []
    GameSpeed := initialGameSpeed
    Distance := 0
    Score := 0
    GameOver := false
    Keys := noKeys }

/-- A stone in the middle lane at height `y`, as `generateObstacles` builds it. -/
def midStone (y : ℚ) : Obstacle :=
  { X := 400, Y := y, Width := 40, Height := 35, Typ := "stone", Active := true }

/-- The start-of-session state with one stone in the middle lane at height `y`. -/
def withStone (y : ℚ) : Game :=
  { NewGame with Obstacles := [midStone y] }

/-- `func (g *Game) Reset()`. -/
def Game.Reset (g : Game) : Game :=
  { g with
    Car := { g.Car with
      X := ((canvasWidth / 2 : Int) : ℚ)
      Y := ((canvasHeight - 100 : Int) : ℚ)
      Speed := 0
      Acceleration := 0
      Crashed := false }
    Obstacles := []
    GameSpeed := initialGameSpeed
    Distance := 0
    Score := 0
    GameOver := false }

/-- `func (g *Game) updateCarPhysics(dt float64)`. -/
def Game.updateCarPhysics (g : Game) (dt : ℚ) : Game :=
  let car := g.Car
  let acceleration : ℚ :=
    if g.Keys "ArrowUp" || g.Keys "KeyW" then 8
    else if g.Keys "ArrowDown" || g.Keys "KeyS" then -4
    else 0
  let steering : ℚ :=
    if g.Keys "ArrowLeft" || g.Keys "KeyA" then -20
    else if g.Keys "ArrowRight" || g.Keys "KeyD" then 20
    else 0
  -- Update speed based on acceleration, then apply friction
  let speed1 := (car.Speed + acceleration * dt) * friction
  -- Clamp speed to max speed
  let speed :=
    if speed1 > car.MaxSpeed then car.MaxSpeed
    else if speed1 < -car.MaxSpeed / 2 then -car.MaxSpeed / 2
    else speed1
  let minEffectiveSpeed : ℚ := 1
  let effectiveSpeed := max |speed| minEffectiveSpeed
  let steeringEffect := steering * effectiveSpeed * dt
  let x1 := car.X + steeringEffect
  let roadLeftEdge : ℚ := (((canvasWidth - roadWidth) / 2 : Int) : ℚ)
  let roadRightEdge : ℚ := roadLeftEdge + (roadWidth : ℚ)
  let x :=
    if x1 - car.Width / 2 < roadLeftEdge then roadLeftEdge + car.Width / 2
    else if x1 + car.Width / 2 > roadRightEdge then roadRightEdge - car.Width / 2
    else x1
  { g with Car := { car with
      Acceleration := acceleration, Steering := steering, Speed := speed, X := x } }

/-- The body of the `for _, obs := range g.Obstacles` loop of `updateObstacles`:
`acc` is `activeObstacles`. -/
def updateObstaclesLoop (gameSpeed dt : ℚ) : List Obstacle → List Obstacle → List Obstacle
  | [], acc => acc
  | obs :: rest, acc =>
    let obs1 := { obs with Y := obs.Y + gameSpeed * dt * 100 }
    if obs1.Y < (canvasHeight : ℚ) + obs1.Height then
      updateObstaclesLoop gameSpeed dt rest (acc ++ [obs1])
    else
      updateObstaclesLoop gameSpeed dt rest acc

/-- `func (g *Game) updateObstacles(dt float64)`. -/
def Game.updateObstacles (g : Game) (dt : ℚ) : Game :=
  { g with Obstacles := updateObstaclesLoop g.GameSpeed dt g.Obstacles [] }

/-- `func (g *Game) generateObstacles()`, with the random draws as `d`. -/
def Game.generateObstacles (g : Game) (d : Draw) : Game :=
  if d.r > 97 / 100 - g.GameSpeed / 100 then
    let obstacleTypes : List String := ["trash", "stone"]
    let obstacleType := obstacleTypes.getD d.typeIdx.val "stone"
    let width : ℚ := if obstacleType = "trash" then 30 else 40
    let height : ℚ := if obstacleType = "trash" then 30 else 35
    let roadLeftEdge : Int := (canvasWidth - roadWidth) / 2
    let laneWidth : Int := roadWidth / laneCount
    let lane : Int := (d.lane.val : Int)
    let x : ℚ := (roadLeftEdge : ℚ) + ((lane : ℚ) * (laneWidth : ℚ)) + ((laneWidth / 2 : Int) : ℚ)
    let obstacle : Obstacle :=
      { X := x, Y := -height, Width := width, Height := height,
        Typ := obstacleType, Active := true }
    { g with Obstacles := g.Obstacles ++ [obstacle] }
  else g

/-- The four strict half-plane tests of `checkCollisions`. -/
def overlaps (car : Car) (obs : Obstacle) : Prop :=
  car.X + car.Width / 2 > obs.X - obs.Width / 2 ∧
  car.X - car.Width / 2 < obs.X + obs.Width / 2 ∧
  car.Y + car.Height / 2 > obs.Y - obs.Height / 2 ∧
  car.Y - car.Height / 2 < obs.Y + obs.Height / 2

instance (car : Car) (obs : Obstacle) : Decidable (overlaps car obs) := by
  unfold overlaps; infer_instance

/-- The `for _, obs := range g.Obstacles` loop of `checkCollisions`, with its
`break` at the first hit. -/
def checkCollisionsLoop (car : Car) : List Obstacle → Car
  | [] => car
  | obs :: rest =>
    if obs.Active then
      if overlaps car obs then { car with Crashed := true }
      else checkCollisionsLoop car rest
    else checkCollisionsLoop car rest

/-- `func (g *Game) checkCollisions()`. -/
def Game.checkCollisions (g : Game) : Game :=
  if g.Car.Crashed then { g with GameOver := true }
  else { g with Car := checkCollisionsLoop g.Car g.Obstacles }

/-- `func (g *Game) Update(dt float64)`, with the random draws of this tick. -/
def Game.Update (g : Game) (dt : ℚ) (d : Draw) : Game :=
  if g.GameOver then g
  else
    let g1 := g.updateCarPhysics dt
    let g2 := g1.updateObstacles dt
    let g3 := g2.generateObstacles d
    let g4 := g3.checkCollisions
    let distance := g4.Distance + g4.GameSpeed * dt
    let g5 := { g4 with Distance := distance, Score := intOfFloat distance }
    if g5.GameSpeed < maxGameSpeed then
      { g5 with GameSpeed := g5.GameSpeed + gameSpeedIncrement * dt }
    else g5

/-- The state after the four sub-steps of a running `Update`, before the
metrics are updated. -/
def Game.afterCollisions (g : Game) (dt : ℚ) (d : Draw) : Game :=
  (((g.updateCarPhysics dt).updateObstacles dt).generateObstacles d).checkCollisions

/-- Round to the nearest integer, ties to the even one. -/
def roundHalfEven (y : ℚ) : Int :=
  if y - ⌊y⌋ < 1 / 2 then ⌊y⌋
  else if y - ⌊y⌋ > 1 / 2 then ⌊y⌋ + 1
  else if ⌊y⌋ % 2 = 0 then ⌊y⌋
  else ⌊y⌋ + 1

/-- The rounding of `float64` arithmetic (IEEE 754 binary64, round to nearest,
ties to even): the nearest number with a 53-bit significand.  The exponent is
not bounded, so this is the `float64` rounding of every result in the normal
range (no overflow to infinity, no subnormal result). -/
def roundF64 (x : ℚ) : ℚ :=
  if x = 0 then 0
  else
    (roundHalfEven (x / (2 : ℚ) ^ (Int.log 2 |x| - 52)) : ℚ) * (2 : ℚ) ^ (Int.log 2 |x| - 52)

/-- `func (g *Game) updateCarPhysics(dt float64)` with the rounding of `float64`
made explicit: every `float64` addition, subtraction, multiplication and
division of the source is its exact result followed by `rnd`, each operation on
its own (no fused multiply-add, as on the `wasm` target of this program), and
the untyped constant `friction` is converted with `rnd`.  The assigned literals
(`8.0`, `-4.0`, `20.0`, `1.0`), the integer road edge `100`, negation,
`math.Abs`, `math.Max` and the comparisons are exact.  With `rnd = id` this is
`Game.updateCarPhysics`. -/
def Game.updateCarPhysicsRounded (rnd : ℚ → ℚ) (g : Game) (dt : ℚ) : Game :=
  let car := g.Car
  let acceleration : ℚ :=
    if g.Keys "ArrowUp" || g.Keys "KeyW" then 8
    else if g.Keys "ArrowDown" || g.Keys "KeyS" then -4
    else 0
  let steering : ℚ :=
    if g.Keys "ArrowLeft" || g.Keys "KeyA" then -20
    else if g.Keys "ArrowRight" || g.Keys "KeyD" then 20
    else 0
  -- car.Speed += car.Acceleration * dt
  let speed0 := rnd (car.Speed + rnd (acceleration * dt))
  -- car.Speed *= friction
  let speed1 := rnd (speed0 * rnd friction)
  -- Clamp speed to max speed
  let speed :=
    if speed1 > car.MaxSpeed then car.MaxSpeed
    else if speed1 < rnd (-car.MaxSpeed / 2) then rnd (-car.MaxSpeed / 2)
    else speed1
  let minEffectiveSpeed : ℚ := 1
  let effectiveSpeed := max |speed| minEffectiveSpeed
  let steeringEffect := rnd (rnd (steering * effectiveSpeed) * dt)
  let x1 := rnd (car.X + steeringEffect)
  let roadLeftEdge : ℚ := (((canvasWidth - roadWidth) / 2 : Int) : ℚ)
  let roadRightEdge : ℚ := rnd (roadLeftEdge + (roadWidth : ℚ))
  let x :=
    if rnd (x1 - rnd (car.Width / 2)) < roadLeftEdge then
      rnd (roadLeftEdge + rnd (car.Width / 2))
    else if rnd (x1 + rnd (car.Width / 2)) > roadRightEdge then
      rnd (roadRightEdge - rnd (car.Width / 2))
    else x1
  { g with Car := { car with
      Acceleration := acceleration, Steering := steering, Speed := speed, X := x } }

/-- The first `n` calls of `updateCarPhysics(dt)` in a row, on `g`, in `float64`
arithmetic with rounding `rnd`. -/
def physicsTicks (rnd : ℚ → ℚ) (dt : ℚ) (n : Nat) (g : Game) : Game :=
  (fun s => Game.updateCarPhysicsRounded rnd s dt)^[n] g

/-- The `ArrowUp` key is held, and no other. -/
def upKey : String → Bool := fun k => k == "ArrowUp"

/-- One frame: the keys held during the frame, the elapsed time and the random
draws. -/
structure Tick where
  keys : String → Bool
  dt : ℚ
  draw : Draw

/-- The keys are set (as `UpdateInput` does between frames), then `Update` runs. -/
def Game.tick (g : Game) (t : Tick) : Game :=
  Game.Update { g with Keys := t.keys } t.dt t.draw

/-- A sequence of frames, oldest first. -/
def Game.run (g : Game) (ticks : List Tick) : Game :=
  ticks.foldl Game.tick g

/-- A draw that spawns nothing at any `GameSpeed <= 97` (`rand.Float64()` gave `0`). -/
def noSpawn : Draw := { r := 0, typeIdx := 0, lane := 0 }

/-- A draw that spawns a stone in the middle lane at any `GameSpeed > 2`
(`rand.Float64()` gave `0.95`). -/
def stoneMid : Draw := { r := 95 / 100, typeIdx := 1, lane := 1 }

/-! ## Frame lemmas: which fields each operation touches -/

theorem updateCarPhysics_frame (g : Game) (dt : ℚ) :
    (g.updateCarPhysics dt).Car.Crashed = g.Car.Crashed ∧
    (g.updateCarPhysics dt).GameOver = g.GameOver ∧
    (g.updateCarPhysics dt).Obstacles = g.Obstacles ∧
    (g.updateCarPhysics dt).GameSpeed = g.GameSpeed ∧
    (g.updateCarPhysics dt).Distance = g.Distance := by
  simp [Game.updateCarPhysics]

theorem generateObstacles_frame (g : Game) (d : Draw) :
    (g.generateObstacles d).Car = g.Car ∧
    (g.generateObstacles d).GameOver = g.GameOver ∧
    (g.generateObstacles d).GameSpeed = g.GameSpeed ∧
    (g.generateObstacles d).Distance = g.Distance := by
  unfold Game.generateObstacles
  split <;> simp

theorem checkCollisions_frame (g : Game) :
    (g.checkCollisions).GameSpeed = g.GameSpeed ∧
    (g.checkCollisions).Distance = g.Distance ∧
    (g.checkCollisions).Obstacles = g.Obstacles ∧
    (g.checkCollisions).GameOver = (g.GameOver || g.Car.Crashed) := by
  unfold Game.checkCollisions
  split
  · rename_i h; simp [h]
  · rename_i h; simp [h]

theorem Update_running (g : Game) (dt : ℚ) (d : Draw) (h : g.GameOver = false) :
    g.Update dt d =
      { g.afterCollisions dt d with
        Distance := (g.afterCollisions dt d).Distance + (g.afterCollisions dt d).GameSpeed * dt
        Score := intOfFloat
          ((g.afterCollisions dt d).Distance + (g.afterCollisions dt d).GameSpeed * dt)
        GameSpeed :=
          if (g.afterCollisions dt d).GameSpeed < maxGameSpeed then
            (g.afterCollisions dt d).GameSpeed + gameSpeedIncrement * dt
          else (g.afterCollisions dt d).GameSpeed } := by
  unfold Game.Update Game.afterCollisions
  simp only [h, Bool.false_eq_true, if_false]
  split <;> rfl

theorem afterCollisions_frame (g : Game) (dt : ℚ) (d : Draw) :
    (g.afterCollisions dt d).GameSpeed = g.GameSpeed ∧
    (g.afterCollisions dt d).Distance = g.Distance ∧
    (g.afterCollisions dt d).GameOver = (g.GameOver || g.Car.Crashed) := by
  have h1 := updateCarPhysics_frame g dt
  have h3 := generateObstacles_frame ((g.updateCarPhysics dt).updateObstacles dt) d
  have h4 := checkCollisions_frame
    (((g.updateCarPhysics dt).updateObstacles dt).generateObstacles d)
  unfold Game.afterCollisions
  refine ⟨?_, ?_, ?_⟩
  · rw [h4.1, h3.2.2.1]; exact h1.2.2.2.1
  · rw [h4.2.1, h3.2.2.2]; exact h1.2.2.2.2
  · rw [h4.2.2.2, h3.2.1, h3.1]
    show ((g.updateCarPhysics dt).GameOver || (g.updateCarPhysics dt).Car.Crashed) = _
    rw [h1.1, h1.2.1]

theorem afterCollisions_crashed (g : Game) (dt : ℚ) (d : Draw)
    (h : g.Car.Crashed = true) : (g.afterCollisions dt d).Car.Crashed = true := by
  have h1 := updateCarPhysics_frame g dt
  have h3 := generateObstacles_frame ((g.updateCarPhysics dt).updateObstacles dt) d
  have hc : (((g.updateCarPhysics dt).updateObstacles dt).generateObstacles d).Car.Crashed
      = true := by
    rw [h3.1]
    show (g.updateCarPhysics dt).Car.Crashed = true
    rw [h1.1, h]
  unfold Game.afterCollisions Game.checkCollisions
  rw [if_pos hc]
  exact hc

theorem Update_gameOver (g : Game) (dt : ℚ) (d : Draw) :
    (g.Update dt d).GameOver = (g.GameOver || g.Car.Crashed) := by
  cases h : g.GameOver
  · rw [Update_running g dt d h]
    show (g.afterCollisions dt d).GameOver = _
    rw [(afterCollisions_frame g dt d).2.2, h]
  · simp [Game.Update, h]

theorem Update_crashed (g : Game) (dt : ℚ) (d : Draw) (h : g.Car.Crashed = true) :
    (g.Update dt d).Car.Crashed = true := by
  cases hg : g.GameOver
  · rw [Update_running g dt d hg]
    exact afterCollisions_crashed g dt d h
  · simp [Game.Update, hg, h]

theorem Update_distance (g : Game) (dt : ℚ) (d : Draw) (h : g.GameOver = false) :
    (g.Update dt d).Distance = g.Distance + g.GameSpeed * dt := by
  rw [Update_running g dt d h]
  show (g.afterCollisions dt d).Distance + (g.afterCollisions dt d).GameSpeed * dt = _
  rw [(afterCollisions_frame g dt d).1, (afterCollisions_frame g dt d).2.1]

theorem Update_score (g : Game) (dt : ℚ) (d : Draw) (h : g.GameOver = false) :
    (g.Update dt d).Score = intOfFloat (g.Distance + g.GameSpeed * dt) := by
  rw [Update_running g dt d h]
  show intOfFloat
    ((g.afterCollisions dt d).Distance + (g.afterCollisions dt d).GameSpeed * dt) = _
  rw [(afterCollisions_frame g dt d).1, (afterCollisions_frame g dt d).2.1]

theorem Update_gameSpeed (g : Game) (dt : ℚ) (d : Draw) (h : g.GameOver = false) :
    (g.Update dt d).GameSpeed =
      if g.GameSpeed < maxGameSpeed then g.GameSpeed + gameSpeedIncrement * dt
      else g.GameSpeed := by
  rw [Update_running g dt d h]
  show (if (g.afterCollisions dt d).GameSpeed < maxGameSpeed then
      (g.afterCollisions dt d).GameSpeed + gameSpeedIncrement * dt
    else (g.afterCollisions dt d).GameSpeed) = _
  rw [(afterCollisions_frame g dt d).1]

theorem run_append_one (g : Game) (ticks : List Tick) (t : Tick) :
    g.run (ticks ++ [t]) = (g.run ticks).tick t := by
  simp [Game.run, List.foldl_append]

theorem run_gameOver_crashed (g : Game) (ticks : List Tick)
    (h : g.GameOver = true → g.Car.Crashed = true) :
    (g.run ticks).GameOver = true → (g.run ticks).Car.Crashed = true := by
  induction ticks using List.reverseRecOn with
  | nil => simpa [Game.run] using h
  | append_singleton ticks t ih =>
    rw [run_append_one]
    intro hgo
    unfold Game.tick at hgo ⊢
    rw [Update_gameOver] at hgo
    have hk : ({ g.run ticks with Keys := t.keys } : Game).Car.Crashed = true := by
      show (g.run ticks).Car.Crashed = true
      have : (g.run ticks).GameOver = true ∨ (g.run ticks).Car.Crashed = true := by
        simpa using hgo
      rcases this with h1 | h2
      · exact ih h1
      · exact h2
    exact Update_crashed _ _ _ hk

/-! ## C1: `GameOver` and `Crashed` -/

/-- The state of a reset game after one frame with `dt = 0` that spawned a
stone in the middle lane. -/
theorem stone_spawned :
    (Game.Reset NewGame).tick ⟨noKeys, 0, stoneMid⟩ = withStone (-35) := by
  have h1 : ({ Game.Reset NewGame with Keys := noKeys } : Game).updateCarPhysics 0
      = NewGame := by
    simp [Game.updateCarPhysics, Game.Reset, NewGame, newCar, noKeys, canvasWidth,
      canvasHeight, roadWidth, friction, initialGameSpeed]
    norm_num
  have h2 : NewGame.updateObstacles 0 = NewGame := by
    simp [Game.updateObstacles, NewGame, updateObstaclesLoop]
  have h3 : NewGame.generateObstacles stoneMid = withStone (-35) := by
    simp [Game.generateObstacles, NewGame, stoneMid, initialGameSpeed, canvasWidth, roadWidth,
      laneCount, withStone, midStone]
    norm_num
  have h4 : (withStone (-35)).checkCollisions = withStone (-35) := by
    simp [Game.checkCollisions, NewGame, checkCollisionsLoop, newCar, overlaps, canvasWidth,
      canvasHeight, withStone, midStone]
    norm_num
  unfold Game.tick
  rw [Update_running _ _ _ rfl]
  unfold Game.afterCollisions
  rw [h1, h2, h3, h4]
  simp [NewGame, intOfFloat, initialGameSpeed, maxGameSpeed, gameSpeedIncrement, withStone]

/-- The next frame (`dt = 1`, nothing spawned): the stone has moved to
`Y = 465`, the car is marked crashed, and `GameOver` is still `false`. -/
theorem stone_hits :
    (withStone (-35)).tick ⟨noKeys, 1, noSpawn⟩ =
      { Car := { newCar with Crashed := true }
        Obstacles := [midStone 465]
        GameSpeed := 5001 / 1000
        Distance := 5
        Score := 5
        GameOver := false
        Keys := noKeys } := by
  have h1 : (withStone (-35)).updateCarPhysics 1 = withStone (-35) := by
    simp [Game.updateCarPhysics, NewGame, newCar, noKeys, canvasWidth,
      canvasHeight, roadWidth, friction, initialGameSpeed, withStone]
    norm_num
  have h2 : (withStone (-35)).updateObstacles 1 = withStone 465 := by
    simp [Game.updateObstacles, NewGame, updateObstaclesLoop, initialGameSpeed, canvasHeight,
      withStone, midStone]
    norm_num
  have h3 : (withStone 465).generateObstacles noSpawn = withStone 465 := by
    simp [Game.generateObstacles, NewGame, noSpawn, initialGameSpeed, withStone]
    norm_num
  have h4 : (withStone 465).checkCollisions
      = { withStone 465 with Car := { newCar with Crashed := true } } := by
    simp [Game.checkCollisions, NewGame, checkCollisionsLoop, newCar, overlaps, canvasWidth,
      canvasHeight, withStone, midStone]
    norm_num
  have e : ({ withStone (-35) with Keys := noKeys } : Game) = withStone (-35) := rfl
  unfold Game.tick
  rw [Update_running _ _ _ rfl]
  unfold Game.afterCollisions
  show Game.mk _ _ _ _ _ _ _ = _
  rw [e, h1, h2, h3, h4]
  simp [NewGame, intOfFloat, initialGameSpeed, maxGameSpeed, gameSpeedIncrement, withStone]
  norm_num

theorem crash_run_state :
    (Game.Reset NewGame).run [⟨noKeys, 0, stoneMid⟩, ⟨noKeys, 1, noSpawn⟩] =
      { Car := { newCar with Crashed := true }
        Obstacles := [midStone 465]
        GameSpeed := 5001 / 1000
        Distance := 5
        Score := 5
        GameOver := false
        Keys := noKeys } := by
  have h : (Game.Reset NewGame).run [⟨noKeys, 0, stoneMid⟩, ⟨noKeys, 1, noSpawn⟩]
      = Game.tick ((Game.Reset NewGame).tick ⟨noKeys, 0, stoneMid⟩) ⟨noKeys, 1, noSpawn⟩ := rfl
  rw [h, stone_spawned, stone_hits]

/-- C1 (as stated, refuted): a reachable state with `Crashed` set and
`GameOver` still clear.  From a reset game, a first frame (`dt = 0`) spawns a
stone in the middle lane; in the second frame (`dt = 1`) the stone reaches the
car, `checkCollisions` sets `Crashed`, and that `Update` ends with
`GameOver = false`. -/
theorem crash_tick_leaves_gameOver_false :
    ((Game.Reset NewGame).run
        [⟨noKeys, 0, stoneMid⟩, ⟨noKeys, 1, noSpawn⟩]).Car.Crashed = true ∧
    ((Game.Reset NewGame).run
        [⟨noKeys, 0, stoneMid⟩, ⟨noKeys, 1, noSpawn⟩]).GameOver = false := by
  rw [crash_run_state]
  exact ⟨rfl, rfl⟩

/-- C1 (amended): in every state reached from a reset game by any sequence of
frames, `GameOver` implies `Crashed`; the `Update` of a running, not yet
crashed state ends with `GameOver = false` (also when it sets `Crashed`); and
the `Update` of a crashed state ends with `GameOver = true`. -/
theorem gameOver_follows_crash_one_tick_late (g0 : Game) (ticks : List Tick) (t : Tick) :
    (((g0.Reset).run ticks).GameOver = true → ((g0.Reset).run ticks).Car.Crashed = true) ∧
    (((g0.Reset).run ticks).GameOver = false → ((g0.Reset).run ticks).Car.Crashed = false →
      (((g0.Reset).run ticks).tick t).GameOver = false) ∧
    (((g0.Reset).run ticks).Car.Crashed = true →
      (((g0.Reset).run ticks).tick t).GameOver = true) := by
  refine ⟨run_gameOver_crashed _ _ (by simp [Game.Reset]), ?_, ?_⟩
  · intro h1 h2
    unfold Game.tick
    rw [Update_gameOver]
    simp [h1, h2]
  · intro h
    unfold Game.tick
    rw [Update_gameOver]
    simp [h]

/-- C1 (amended), at the crash of `crash_run_state`: the state after the crash
frame is crashed and not over, and the following frame ends with
`GameOver = true`. -/
theorem gameOver_follows_crash_one_tick_late_witness :
    ((Game.Reset NewGame).run
        [⟨noKeys, 0, stoneMid⟩, ⟨noKeys, 1, noSpawn⟩]).Car.Crashed = true ∧
    (((Game.Reset NewGame).run
        [⟨noKeys, 0, stoneMid⟩, ⟨noKeys, 1, noSpawn⟩]).tick ⟨noKeys, 1, noSpawn⟩).GameOver
      = true :=
  have hc : ((Game.Reset NewGame).run
      [⟨noKeys, 0, stoneMid⟩, ⟨noKeys, 1, noSpawn⟩]).Car.Crashed = true := by
    rw [crash_run_state]
  ⟨hc, (gameOver_follows_crash_one_tick_late NewGame
    [⟨noKeys, 0, stoneMid⟩, ⟨noKeys, 1, noSpawn⟩] ⟨noKeys, 1, noSpawn⟩).2.2 hc⟩

/-! ## C8: `Reset` -/

/-- C8: after `Reset` the fields are `Car.X = 400`, `Car.Y = 500`,
`Car.Speed = 0`, `Car.Acceleration = 0`, `Car.Crashed = false`, no obstacles,
`GameSpeed = 5`, `Distance = 0`, `Score = 0`, `GameOver = false`, with
`Car.Width` and `Car.Height` unchanged; these are the values `NewGame` sets
(whose car is 50 by 80), so a reset of a game whose car is 50 by 80 agrees with
`NewGame` on every one of these fields; and `Reset` is idempotent. -/
theorem reset_restores_start_of_session (g : Game) :
    (g.Reset.Car.X = 400 ∧ g.Reset.Car.Y = 500 ∧ g.Reset.Car.Speed = 0 ∧
      g.Reset.Car.Acceleration = 0 ∧ g.Reset.Car.Crashed = false ∧ g.Reset.Obstacles = [] ∧
      g.Reset.GameSpeed = 5 ∧ g.Reset.Distance = 0 ∧ g.Reset.Score = 0 ∧
      g.Reset.GameOver = false) ∧
    (g.Reset.Car.Width = g.Car.Width ∧ g.Reset.Car.Height = g.Car.Height) ∧
    (NewGame.Car.Width = 50 ∧ NewGame.Car.Height = 80) ∧
    (g.Reset.Car.X = NewGame.Car.X ∧ g.Reset.Car.Y = NewGame.Car.Y ∧
      g.Reset.Car.Speed = NewGame.Car.Speed ∧
      g.Reset.Car.Acceleration = NewGame.Car.Acceleration ∧
      g.Reset.Car.Crashed = NewGame.Car.Crashed ∧ g.Reset.Obstacles = NewGame.Obstacles ∧
      g.Reset.GameSpeed = NewGame.GameSpeed ∧ g.Reset.Distance = NewGame.Distance ∧
      g.Reset.Score = NewGame.Score ∧ g.Reset.GameOver = NewGame.GameOver) ∧
    g.Reset.Reset = g.Reset := by
  refine ⟨?_, ⟨rfl, rfl⟩, ⟨rfl, rfl⟩, ?_, rfl⟩
  · simp [Game.Reset, canvasWidth, canvasHeight, initialGameSpeed]
  · simp [Game.Reset, NewGame, newCar]

/-! ## C5: the crash is terminal -/

theorem run_crashed (g : Game) (ticks : List Tick) (h : g.Car.Crashed = true) :
    (g.run ticks).Car.Crashed = true := by
  induction ticks using List.reverseRecOn with
  | nil => exact h
  | append_singleton ticks t ih =>
    rw [run_append_one]
    exact Update_crashed _ _ _ ih

/-- C5: once `Car.Crashed` is true, `Update` leaves it true for every `dt`,
every key state and every spawn outcome, and so does every sequence of frames
(only `Reset` clears it); and once `GameOver` is true, `Update` returns the
state unchanged. -/
theorem crash_is_terminal (g : Game) (dt : ℚ) (d : Draw) (ticks : List Tick) :
    (g.Car.Crashed = true →
      (g.Update dt d).Car.Crashed = true ∧ (g.run ticks).Car.Crashed = true) ∧
    (g.GameOver = true → g.Update dt d = g) := by
  refine ⟨fun h => ⟨Update_crashed g dt d h, run_crashed g ticks h⟩, ?_⟩
  intro h
  simp [Game.Update, h]

/-- C5, at the state right after the crash of `stone_hits` and at a state that
is over. -/
theorem crash_is_terminal_witness :
    ((Game.Update { withStone 465 with Car := { newCar with Crashed := true } } 1
        stoneMid).Car.Crashed = true ∧
      (Game.run { withStone 465 with Car := { newCar with Crashed := true } }
        [⟨noKeys, 1, noSpawn⟩, ⟨noKeys, 2, stoneMid⟩]).Car.Crashed = true) ∧
    Game.Update { withStone 465 with GameOver := true } 1 stoneMid
      = { withStone 465 with GameOver := true } :=
  ⟨(crash_is_terminal { withStone 465 with Car := { newCar with Crashed := true } } 1
      stoneMid [⟨noKeys, 1, noSpawn⟩, ⟨noKeys, 2, stoneMid⟩]).1 rfl,
   (crash_is_terminal { withStone 465 with GameOver := true } 1 stoneMid []).2 rfl⟩

/-! ## Metrics: distance, score and game speed -/

theorem intOfFloat_of_nonneg (x : ℚ) (h0 : 0 ≤ x) (h1 : x < 2 ^ 63) :
    intOfFloat x = ⌊x⌋ := by
  have hn : 0 ≤ x.num := Rat.num_nonneg.mpr h0
  have ht : Int.tdiv x.num (x.den : Int) = ⌊x⌋ := by
    rw [Int.tdiv_eq_ediv hn (by positivity)]
    exact (Rat.floor_def' x).symm
  have hlo : -(2 : Int) ^ 63 ≤ ⌊x⌋ := by
    have : (0 : Int) ≤ ⌊x⌋ := Int.floor_nonneg.mpr h0
    linarith [show (0 : Int) ≤ 2 ^ 63 by positivity]
  have hhi : ⌊x⌋ < (2 : Int) ^ 63 := by
    rw [Int.floor_lt]; push_cast; exact h1
  unfold intOfFloat
  simp only [ht]
  rw [if_pos ⟨hlo, hhi⟩]

theorem intOfFloat_of_neg (x : ℚ) (h0 : x < 0) (h1 : -(2 ^ 63) < x) :
    intOfFloat x = ⌈x⌉ := by
  have hn : 0 ≤ (-x).num := Rat.num_nonneg.mpr (by linarith)
  have ht : Int.tdiv x.num (x.den : Int) = ⌈x⌉ := by
    have e : x.num = -((-x).num) := by rw [Rat.neg_num]; ring
    have e2 : (x.den : Int) = ((-x).den : Int) := by rw [Rat.neg_den]
    rw [e, Int.neg_tdiv, e2, Int.tdiv_eq_ediv hn (by positivity), ← Rat.floor_def']
    show -⌊-x⌋ = ⌈x⌉
    rw [Int.floor_neg]; ring
  have hlo : -(2 : Int) ^ 63 ≤ ⌈x⌉ := by
    have : ((-(2 : Int) ^ 63 : Int) : ℚ) ≤ x := by push_cast; linarith
    exact Int.cast_le.mp (le_trans this (Int.le_ceil x))
  have hhi : ⌈x⌉ < (2 : Int) ^ 63 := by
    have : ⌈x⌉ ≤ 0 := Int.ceil_le.mpr (by simpa using h0.le)
    linarith [show (0 : Int) < 2 ^ 63 by positivity]
  unfold intOfFloat
  simp only [ht]
  rw [if_pos ⟨hlo, hhi⟩]

/-! ## C9: distance and score -/

/-- C9 (as stated, refuted): from the reset state, `Update(-0.1)` gives
`Distance = -0.5` and `Score = int(-0.5) = 0`, while `floor(-0.5) = -1`. -/
theorem score_is_not_floor_for_negative_distance :
    (Game.Reset NewGame).GameOver = false ∧
    ((Game.Reset NewGame).Update (-1 / 10) noSpawn).Distance = -1 / 2 ∧
    ((Game.Reset NewGame).Update (-1 / 10) noSpawn).Score = 0 ∧
    ⌊((Game.Reset NewGame).Update (-1 / 10) noSpawn).Distance⌋ = -1 ∧
    ((Game.Reset NewGame).Update (-1 / 10) noSpawn).Score
      ≠ ⌊((Game.Reset NewGame).Update (-1 / 10) noSpawn).Distance⌋ := by
  have hd : ((Game.Reset NewGame).Update (-1 / 10) noSpawn).Distance = -1 / 2 := by
    rw [Update_distance _ _ _ rfl]
    norm_num [Game.Reset, initialGameSpeed]
  have hs : ((Game.Reset NewGame).Update (-1 / 10) noSpawn).Score = 0 := by
    rw [Update_score _ _ _ rfl]
    have e : (Game.Reset NewGame).Distance + (Game.Reset NewGame).GameSpeed * (-1 / 10)
        = -1 / 2 := by
      norm_num [Game.Reset, initialGameSpeed]
    rw [e, intOfFloat_of_neg _ (by norm_num) (by norm_num)]
    rw [Int.ceil_eq_iff]
    norm_num
  have hf : ⌊((Game.Reset NewGame).Update (-1 / 10) noSpawn).Distance⌋ = -1 := by
    rw [hd, Int.floor_eq_iff]
    norm_num
  refine ⟨rfl, hd, hs, hf, ?_⟩
  rw [hs, hf]
  decide

/-- C9 (amended): for every running state and every `dt`, after `Update(dt)`
`Distance' = Distance + GameSpeed * dt` with the `GameSpeed` held before the
ramp, and `Score'` is `Distance'` truncated toward zero: `floor(Distance')`
when `0 <= Distance' < 2^63`, `ceil(Distance')` when `-2^63 < Distance' < 0`. -/
theorem distance_and_score (g : Game) (dt : ℚ) (d : Draw) (hrun : g.GameOver = false) :
    (g.Update dt d).Distance = g.Distance + g.GameSpeed * dt ∧
    (0 ≤ (g.Update dt d).Distance → (g.Update dt d).Distance < 2 ^ 63 →
      (g.Update dt d).Score = ⌊(g.Update dt d).Distance⌋) ∧
    ((g.Update dt d).Distance < 0 → -(2 ^ 63) < (g.Update dt d).Distance →
      (g.Update dt d).Score = ⌈(g.Update dt d).Distance⌉) := by
  rw [Update_distance g dt d hrun, Update_score g dt d hrun]
  exact ⟨rfl, intOfFloat_of_nonneg _, intOfFloat_of_neg _⟩

/-- C9, the scenario of the specification: `dt = 1`, `GameSpeed = 5`,
`Distance = 0`, no key held, nothing spawned: `Distance = 5` and `Score = 5`. -/
theorem distance_and_score_witness :
    (Game.Reset NewGame).GameOver = false ∧
    ((Game.Reset NewGame).Update 1 noSpawn).Distance = 5 ∧
    ((Game.Reset NewGame).Update 1 noSpawn).Score = 5 := by
  have h := distance_and_score (Game.Reset NewGame) 1 noSpawn rfl
  have hd : ((Game.Reset NewGame).Update 1 noSpawn).Distance = 5 := by
    rw [h.1]; norm_num [Game.Reset, initialGameSpeed]
  refine ⟨rfl, hd, ?_⟩
  rw [h.2.1 (by rw [hd]; norm_num) (by rw [hd]; norm_num), hd, Int.floor_eq_iff]
  norm_num

/-! ## C7: negative `dt` -/

/-- C7 (as stated, refuted): from the reset state, with the same draws,
`Update(-1)` ends with `Distance = -5` and `Update(0)` with `Distance = 0`, so
the two resulting states differ and the distance has moved backwards. -/
theorem negative_dt_differs_from_zero_dt :
    ((Game.Reset NewGame).Update (-1) noSpawn).Distance = -5 ∧
    ((Game.Reset NewGame).Update 0 noSpawn).Distance = 0 ∧
    (Game.Reset NewGame).Update (-1) noSpawn ≠ (Game.Reset NewGame).Update 0 noSpawn := by
  have h1 : ((Game.Reset NewGame).Update (-1) noSpawn).Distance = -5 := by
    rw [Update_distance _ _ _ rfl]; norm_num [Game.Reset, initialGameSpeed]
  have h0 : ((Game.Reset NewGame).Update 0 noSpawn).Distance = 0 := by
    rw [Update_distance _ _ _ rfl]; norm_num [Game.Reset, initialGameSpeed]
  refine ⟨h1, h0, ?_⟩
  intro h
  rw [h, h0] at h1
  norm_num at h1

/-- C7 (amended): `Update` does not clamp `dt`.  For every running state with
`GameSpeed > 0` and every `dt < 0`, `Update(dt)` ends with
`Distance' = Distance + GameSpeed * dt < Distance`, and with a smaller
`GameSpeed` when that was below `maxGameSpeed`, whereas `Update(0)` leaves
`Distance` and `GameSpeed` as they were; so under the same random draws the
two resulting states differ. -/
theorem negative_dt_rewinds (g : Game) (dt : ℚ) (d : Draw) (hrun : g.GameOver = false)
    (hdt : dt < 0) (hspeed : 0 < g.GameSpeed) :
    (g.Update dt d).Distance = g.Distance + g.GameSpeed * dt ∧
    (g.Update dt d).Distance < g.Distance ∧
    (g.GameSpeed < maxGameSpeed → (g.Update dt d).GameSpeed < g.GameSpeed) ∧
    (g.Update 0 d).Distance = g.Distance ∧
    (g.Update 0 d).GameSpeed = g.GameSpeed ∧
    g.Update dt d ≠ g.Update 0 d := by
  have hd := Update_distance g dt d hrun
  have h0 : (g.Update 0 d).Distance = g.Distance := by
    rw [Update_distance g 0 d hrun]; ring
  have hlt : (g.Update dt d).Distance < g.Distance := by
    rw [hd]; nlinarith
  refine ⟨hd, hlt, ?_, h0, ?_, ?_⟩
  · intro hs
    rw [Update_gameSpeed g dt d hrun, if_pos hs]
    have : gameSpeedIncrement * dt < 0 := by
      unfold gameSpeedIncrement; linarith
    linarith
  · rw [Update_gameSpeed g 0 d hrun]
    split <;> ring
  · intro h
    rw [h, h0] at hlt
    exact lt_irrefl _ hlt

/-- C7 (amended), at the reset state with `dt = -1`. -/
theorem negative_dt_rewinds_witness :
    ((Game.Reset NewGame).Update (-1) noSpawn).Distance
      < (Game.Reset NewGame).Distance ∧
    (Game.Reset NewGame).Update (-1) noSpawn ≠ (Game.Reset NewGame).Update 0 noSpawn :=
  have h := negative_dt_rewinds (Game.Reset NewGame) (-1) noSpawn rfl (by norm_num)
    (by norm_num [Game.Reset, initialGameSpeed])
  ⟨h.2.1, h.2.2.2.2.2⟩

/-! ## C2: the game-speed ramp -/

/-- C2, the code at a failing input: a reset game, one frame of `dt = 9999`
(nothing held, nothing spawned) brings `GameSpeed` to `14.999`, still running;
the next `Update(1.5)` ends with `GameSpeed = 15.0005`, above `maxGameSpeed`,
where `min(15, GameSpeed + 0.001 * dt)` is `15`. -/
theorem gameSpeed_overshoots_maxGameSpeed :
    ((Game.Reset NewGame).run [⟨noKeys, 9999, noSpawn⟩]).GameOver = false ∧
    ((Game.Reset NewGame).run [⟨noKeys, 9999, noSpawn⟩]).GameSpeed = 14999 / 1000 ∧
    (((Game.Reset NewGame).run [⟨noKeys, 9999, noSpawn⟩]).Update (3 / 2) noSpawn).GameSpeed
      = 150005 / 10000 ∧
    maxGameSpeed <
      (((Game.Reset NewGame).run [⟨noKeys, 9999, noSpawn⟩]).Update (3 / 2) noSpawn).GameSpeed ∧
    (((Game.Reset NewGame).run [⟨noKeys, 9999, noSpawn⟩]).Update (3 / 2) noSpawn).GameSpeed
      ≠ min maxGameSpeed
          (((Game.Reset NewGame).run [⟨noKeys, 9999, noSpawn⟩]).GameSpeed
            + gameSpeedIncrement * (3 / 2)) := by
  have e : (Game.Reset NewGame).run [⟨noKeys, 9999, noSpawn⟩]
      = Game.Update { Game.Reset NewGame with Keys := noKeys } 9999 noSpawn := rfl
  have hrun : ((Game.Reset NewGame).run [⟨noKeys, 9999, noSpawn⟩]).GameOver = false := by
    rw [e, Update_gameOver]; rfl
  have hs : ((Game.Reset NewGame).run [⟨noKeys, 9999, noSpawn⟩]).GameSpeed = 14999 / 1000 := by
    rw [e, Update_gameSpeed _ _ _ rfl]
    norm_num [Game.Reset, initialGameSpeed, maxGameSpeed, gameSpeedIncrement]
  have hs2 : (((Game.Reset NewGame).run [⟨noKeys, 9999, noSpawn⟩]).Update (3 / 2)
      noSpawn).GameSpeed = 150005 / 10000 := by
    rw [Update_gameSpeed _ _ _ hrun, hs]
    norm_num [maxGameSpeed, gameSpeedIncrement]
  refine ⟨hrun, hs, hs2, ?_, ?_⟩
  · rw [hs2]; norm_num [maxGameSpeed]
  · rw [hs2, hs]; norm_num [maxGameSpeed, gameSpeedIncrement]

/-! ## C3: road containment -/

theorem updateCarPhysics_X (g : Game) (dt : ℚ) :
    ∃ x1 : ℚ,
      (g.updateCarPhysics dt).Car.X =
        (if x1 - g.Car.Width / 2 < (((canvasWidth - roadWidth) / 2 : Int) : ℚ) then
          (((canvasWidth - roadWidth) / 2 : Int) : ℚ) + g.Car.Width / 2
        else if x1 + g.Car.Width / 2
            > (((canvasWidth - roadWidth) / 2 : Int) : ℚ) + (roadWidth : ℚ) then
          (((canvasWidth - roadWidth) / 2 : Int) : ℚ) + (roadWidth : ℚ) - g.Car.Width / 2
        else x1) ∧
      (g.updateCarPhysics dt).Car.Width = g.Car.Width :=
  ⟨_, rfl, rfl⟩

/-- C3: for every prior state whose car is no wider than the road (`Width = 50`
in every game), every key state and every `dt`, after `updateCarPhysics` the
car lies on the road: `100 <= X - Width/2` and `X + Width/2 <= 700`. -/
theorem car_stays_on_road (g : Game) (dt : ℚ) (hw : g.Car.Width ≤ (roadWidth : ℚ)) :
    100 ≤ (g.updateCarPhysics dt).Car.X - (g.updateCarPhysics dt).Car.Width / 2 ∧
    (g.updateCarPhysics dt).Car.X + (g.updateCarPhysics dt).Car.Width / 2 ≤ 700 := by
  have hw2 : g.Car.Width ≤ 600 := by simpa [roadWidth] using hw
  obtain ⟨x1, hx, hwid⟩ := updateCarPhysics_X g dt
  have hl : (((canvasWidth - roadWidth) / 2 : Int) : ℚ) = 100 := by
    norm_num [canvasWidth, roadWidth]
  have hr : ((roadWidth : Int) : ℚ) = 600 := by norm_num [roadWidth]
  rw [hx, hwid, hl, hr]
  split_ifs <;> constructor <;> linarith

/-- C3, at the start-of-session car (`Width = 50`) with `dt = 1`. -/
theorem car_stays_on_road_witness :
    NewGame.Car.Width ≤ (roadWidth : ℚ) ∧
    100 ≤ (NewGame.updateCarPhysics 1).Car.X - (NewGame.updateCarPhysics 1).Car.Width / 2 ∧
    (NewGame.updateCarPhysics 1).Car.X + (NewGame.updateCarPhysics 1).Car.Width / 2 ≤ 700 :=
  ⟨by norm_num [NewGame, newCar, roadWidth],
   car_stays_on_road NewGame 1 (by norm_num [NewGame, newCar, roadWidth])⟩

/-! ## C4: collision detection -/

theorem checkCollisionsLoop_crashed (car : Car) (l : List Obstacle)
    (h : car.Crashed = false) :
    (checkCollisionsLoop car l).Crashed = true ↔
      ∃ obs ∈ l, obs.Active = true ∧ overlaps car obs := by
  induction l with
  | nil => simp [checkCollisionsLoop, h]
  | cons obs rest ih =>
    unfold checkCollisionsLoop
    by_cases ha : obs.Active = true
    · by_cases ho : overlaps car obs
      · simp only [ha, ho, if_true]
        exact ⟨fun _ => ⟨obs, List.mem_cons_self _ _, ha, ho⟩, fun _ => trivial⟩
      · simp only [ha, ho, if_true, if_false]
        rw [ih]
        constructor
        · rintro ⟨o, ho1, ho2⟩
          exact ⟨o, List.mem_cons_of_mem _ ho1, ho2⟩
        · rintro ⟨o, ho1, ho2, ho3⟩
          rcases List.mem_cons.mp ho1 with e | e
          · subst e; exact absurd ho3 ho
          · exact ⟨o, e, ho2, ho3⟩
    · simp only [ha]
      rw [if_neg (by simp), ih]
      constructor
      · rintro ⟨o, ho1, ho2⟩
        exact ⟨o, List.mem_cons_of_mem _ ho1, ho2⟩
      · rintro ⟨o, ho1, ho2, ho3⟩
        rcases List.mem_cons.mp ho1 with e | e
        · subst e; exact absurd ho2 ha
        · exact ⟨o, e, ho2, ho3⟩

theorem overlaps_iff_abs (car : Car) (obs : Obstacle) :
    overlaps car obs ↔
      |car.X - obs.X| < car.Width / 2 + obs.Width / 2 ∧
      |car.Y - obs.Y| < car.Height / 2 + obs.Height / 2 := by
  unfold overlaps
  rw [abs_lt, abs_lt]
  constructor
  · rintro ⟨h1, h2, h3, h4⟩
    exact ⟨⟨by linarith, by linarith⟩, ⟨by linarith, by linarith⟩⟩
  · rintro ⟨⟨h1, h2⟩, ⟨h3, h4⟩⟩
    exact ⟨by linarith, by linarith, by linarith, by linarith⟩

/-- C4: for a car that is not yet crashed, after `checkCollisions` the car is
crashed exactly when some active obstacle passes the four strict half-plane
tests; the four tests say that `|dx|` is below the sum of the half-widths and
`|dy|` below the sum of the half-heights; so when every obstacle is inactive
or separated on an axis by at least the combined half-extent, there is no
crash. -/
theorem collision_detection_exact (g : Game) (h : g.Car.Crashed = false) :
    ((g.checkCollisions).Car.Crashed = true ↔
      ∃ obs ∈ g.Obstacles, obs.Active = true ∧
        g.Car.X + g.Car.Width / 2 > obs.X - obs.Width / 2 ∧
        g.Car.X - g.Car.Width / 2 < obs.X + obs.Width / 2 ∧
        g.Car.Y + g.Car.Height / 2 > obs.Y - obs.Height / 2 ∧
        g.Car.Y - g.Car.Height / 2 < obs.Y + obs.Height / 2) ∧
    (∀ obs : Obstacle,
      (g.Car.X + g.Car.Width / 2 > obs.X - obs.Width / 2 ∧
        g.Car.X - g.Car.Width / 2 < obs.X + obs.Width / 2 ∧
        g.Car.Y + g.Car.Height / 2 > obs.Y - obs.Height / 2 ∧
        g.Car.Y - g.Car.Height / 2 < obs.Y + obs.Height / 2) ↔
      (|g.Car.X - obs.X| < g.Car.Width / 2 + obs.Width / 2 ∧
        |g.Car.Y - obs.Y| < g.Car.Height / 2 + obs.Height / 2)) ∧
    ((∀ obs ∈ g.Obstacles, obs.Active = false ∨
        g.Car.Width / 2 + obs.Width / 2 ≤ |g.Car.X - obs.X| ∨
        g.Car.Height / 2 + obs.Height / 2 ≤ |g.Car.Y - obs.Y|) →
      (g.checkCollisions).Car.Crashed = false) := by
  have hc : (g.checkCollisions).Car.Crashed = (checkCollisionsLoop g.Car g.Obstacles).Crashed := by
    unfold Game.checkCollisions
    rw [if_neg (by simp [h])]
  refine ⟨?_, fun obs => overlaps_iff_abs g.Car obs, ?_⟩
  · rw [hc, checkCollisionsLoop_crashed g.Car g.Obstacles h]
    rfl
  · intro hsep
    rw [hc]
    by_contra hne
    have hcr : (checkCollisionsLoop g.Car g.Obstacles).Crashed = true := by
      simpa using hne
    obtain ⟨obs, hmem, hact, hov⟩ := (checkCollisionsLoop_crashed g.Car g.Obstacles h).mp hcr
    have habs := (overlaps_iff_abs g.Car obs).mp hov
    rcases hsep obs hmem with h1 | h1 | h1
    · rw [hact] at h1; exact Bool.noConfusion h1
    · linarith [habs.1]
    · linarith [habs.2]

/-- C4, at the state of `stone_hits` before the collision check: the stone at
`Y = 465` overlaps the car. -/
theorem collision_detection_exact_witness :
    (withStone 465).Car.Crashed = false ∧
    ((withStone 465).checkCollisions.Car.Crashed = true ↔
      ∃ obs ∈ (withStone 465).Obstacles, obs.Active = true ∧
        (withStone 465).Car.X + (withStone 465).Car.Width / 2 > obs.X - obs.Width / 2 ∧
        (withStone 465).Car.X - (withStone 465).Car.Width / 2 < obs.X + obs.Width / 2 ∧
        (withStone 465).Car.Y + (withStone 465).Car.Height / 2 > obs.Y - obs.Height / 2 ∧
        (withStone 465).Car.Y - (withStone 465).Car.Height / 2 < obs.Y + obs.Height / 2) :=
  ⟨rfl, (collision_detection_exact (withStone 465) rfl).1⟩

/-! ## C6: obstacle retirement -/

theorem updateObstaclesLoop_eq (gameSpeed dt : ℚ) (l acc : List Obstacle) :
    updateObstaclesLoop gameSpeed dt l acc =
      acc ++ List.filter (fun o => decide (o.Y < 600 + o.Height))
        (l.map (fun o => { o with Y := o.Y + gameSpeed * dt * 100 })) := by
  induction l generalizing acc with
  | nil => simp [updateObstaclesLoop]
  | cons obs rest ih =>
    unfold updateObstaclesLoop
    have hc : ((canvasHeight : Int) : ℚ) = 600 := by norm_num [canvasHeight]
    simp only [hc, List.map_cons]
    by_cases h : obs.Y + gameSpeed * dt * 100 < 600 + obs.Height
    · rw [if_pos h, ih, List.filter_cons_of_pos (by simpa using h)]
      simp
    · rw [if_neg h, ih, List.filter_cons_of_neg (by simpa using h)]

/-- C6: after `updateObstacles(dt)` the live list is the prior obstacles in
their original order, each with `Y` increased by `GameSpeed * dt * 100`,
restricted to those whose new `Y` is below `600 + Height`; hence, for
`dt >= 0` and `GameSpeed >= 0`, an obstacle whose `Y` already exceeded
`600 + Height` is not in the live list after the call, neither moved nor as it
was. -/
theorem obstacle_retirement (g : Game) (dt : ℚ) :
    (g.updateObstacles dt).Obstacles =
      List.filter (fun o => decide (o.Y < 600 + o.Height))
        (g.Obstacles.map (fun o => { o with Y := o.Y + g.GameSpeed * dt * 100 })) ∧
    (0 ≤ dt → 0 ≤ g.GameSpeed → ∀ obs ∈ g.Obstacles, 600 + obs.Height < obs.Y →
      ({ obs with Y := obs.Y + g.GameSpeed * dt * 100 } : Obstacle)
          ∉ (g.updateObstacles dt).Obstacles ∧
      obs ∉ (g.updateObstacles dt).Obstacles) := by
  have he : (g.updateObstacles dt).Obstacles =
      List.filter (fun o => decide (o.Y < 600 + o.Height))
        (g.Obstacles.map (fun o => { o with Y := o.Y + g.GameSpeed * dt * 100 })) := by
    show updateObstaclesLoop g.GameSpeed dt g.Obstacles [] = _
    rw [updateObstaclesLoop_eq]; rfl
  refine ⟨he, ?_⟩
  intro hdt hs obs _ hy
  have hmove : 0 ≤ g.GameSpeed * dt * 100 := by positivity
  rw [he]
  constructor
  · intro hmem
    have := (List.mem_filter.mp hmem).2
    simp only [decide_eq_true_eq] at this
    linarith
  · intro hmem
    have := (List.mem_filter.mp hmem).2
    simp only [decide_eq_true_eq] at this
    linarith

/-- C6, at a game whose only obstacle is a stone at `Y = 700 > 600 + 35`, with
`dt = 1`: the live list is empty afterwards. -/
theorem obstacle_retirement_witness :
    (0 : ℚ) ≤ 1 ∧ 0 ≤ (withStone 700).GameSpeed ∧ midStone 700 ∈ (withStone 700).Obstacles ∧
    600 + (midStone 700).Height < (midStone 700).Y ∧
    midStone 700 ∉ ((withStone 700).updateObstacles 1).Obstacles :=
  ⟨by norm_num, by norm_num [withStone, NewGame, initialGameSpeed],
   by simp [withStone], by norm_num [midStone],
   ((obstacle_retirement (withStone 700) 1).2 (by norm_num)
      (by norm_num [withStone, NewGame, initialGameSpeed]) (midStone 700)
      (by simp [withStone]) (by norm_num [midStone])).2⟩


/-! ## C10: accelerating against friction -/

theorem updateCarPhysicsRounded_id (g : Game) (dt : ℚ) :
    g.updateCarPhysicsRounded id dt = g.updateCarPhysics dt := rfl

theorem roundHalfEven_error (y : ℚ) : |(roundHalfEven y : ℚ) - y| ≤ 1 / 2 := by
  have h1 : (⌊y⌋ : ℚ) ≤ y := Int.floor_le y
  have h2 : y < ⌊y⌋ + 1 := Int.lt_floor_add_one y
  unfold roundHalfEven
  rw [abs_le]
  split_ifs with a b c <;> push_cast <;> constructor <;> linarith

theorem roundF64_error (x : ℚ) : |roundF64 x - x| ≤ |x| / 2 ^ 53 := by
  unfold roundF64
  by_cases hx : x = 0
  · simp [hx]
  · rw [if_neg hx]
    have hpos : (0 : ℚ) < |x| := abs_pos.mpr hx
    have hq : (0 : ℚ) < (2 : ℚ) ^ (Int.log 2 |x| - 52) := by positivity
    have hlog : (2 : ℚ) ^ (Int.log 2 |x|) ≤ |x| := by
      have := Int.zpow_log_le_self (R := ℚ) (b := 2) (r := |x|) (by norm_num) hpos
      simpa using this
    have hsplit : (2 : ℚ) ^ (Int.log 2 |x| - 52) = (2 : ℚ) ^ (Int.log 2 |x|) / 2 ^ 52 := by
      rw [zpow_sub₀ (by norm_num)]; norm_num
    have herr := roundHalfEven_error (x / (2 : ℚ) ^ (Int.log 2 |x| - 52))
    have e : (roundHalfEven (x / (2 : ℚ) ^ (Int.log 2 |x| - 52)) : ℚ)
          * (2 : ℚ) ^ (Int.log 2 |x| - 52) - x
        = ((roundHalfEven (x / (2 : ℚ) ^ (Int.log 2 |x| - 52)) : ℚ)
            - x / (2 : ℚ) ^ (Int.log 2 |x| - 52)) * (2 : ℚ) ^ (Int.log 2 |x| - 52) := by
      field_simp
    rw [e, abs_mul, abs_of_pos hq]
    calc |(roundHalfEven (x / (2 : ℚ) ^ (Int.log 2 |x| - 52)) : ℚ)
            - x / (2 : ℚ) ^ (Int.log 2 |x| - 52)| * (2 : ℚ) ^ (Int.log 2 |x| - 52)
        ≤ 1 / 2 * (2 : ℚ) ^ (Int.log 2 |x| - 52) :=
          mul_le_mul_of_nonneg_right herr hq.le
      _ = (2 : ℚ) ^ (Int.log 2 |x|) / 2 ^ 53 := by rw [hsplit]; ring
      _ ≤ |x| / 2 ^ 53 := by gcongr

theorem rnd_near (rnd : ℚ → ℚ)
    (hr : ∀ x, 1 / 16 ≤ |x| → |x| ≤ 16 → |rnd x - x| ≤ |x| / 2 ^ 53) (x x0 δ B : ℚ)
    (h : |x - x0| ≤ δ) (hB : |x0| ≤ B) (hlo : 1 / 16 + δ ≤ |x0|) (hhi : B + δ ≤ 16) :
    |rnd x - x0| ≤ δ + (B + δ) / 2 ^ 53 := by
  have h1 : |x| ≤ B + δ := by
    have : |x| ≤ |x - x0| + |x0| := by
      have := abs_add (x - x0) x0
      simpa using this
    linarith
  have h0 : 1 / 16 ≤ |x| := by
    have : |x0| ≤ |x0 - x| + |x| := by
      have := abs_add (x0 - x) x
      simpa using this
    rw [abs_sub_comm] at this
    linarith
  have h2 : |rnd x - x| ≤ (B + δ) / 2 ^ 53 :=
    le_trans (hr x h0 (le_trans h1 hhi)) (by gcongr)
  have h3 := abs_sub_le (rnd x) x x0
  linarith

/-- One accelerating tick at `dt = 0.1` in rounded arithmetic: the new speed
before the clamp is within `10^-14` of `(s + 8.0 * 0.1) * 0.95`. -/
theorem accel_step_near (rnd : ℚ → ℚ)
    (hr : ∀ x, 1 / 16 ≤ |x| → |x| ≤ 16 → |rnd x - x| ≤ |x| / 2 ^ 53) (s : ℚ)
    (hs0 : -(1 / 10) ≤ s) (hs1 : s ≤ 11) :
    |rnd (rnd (s + rnd (8 * rnd (1 / 10))) * rnd friction) - (s + 8 * (1 / 10)) * (95 / 100)|
      ≤ 1 / 10 ^ 14 := by
  have ha : |rnd (1 / 10) - 1 / 10| ≤ 2 / 10 ^ 17 := by
    have := rnd_near rnd hr (1 / 10) (1 / 10) 0 (1 / 10) (by simp)
      (by rw [abs_of_pos (by norm_num)]) (by rw [abs_of_pos (by norm_num)]; norm_num)
      (by norm_num)
    exact le_trans this (by norm_num)
  have h8 : |8 * rnd (1 / 10) - 8 / 10| ≤ 16 / 10 ^ 17 := by
    have e : 8 * rnd (1 / 10) - 8 / 10 = 8 * (rnd (1 / 10) - 1 / 10) := by ring
    rw [e, abs_mul, abs_of_pos (by norm_num : (0 : ℚ) < 8)]
    linarith
  have hb : |rnd (8 * rnd (1 / 10)) - 8 / 10| ≤ 3 / 10 ^ 16 := by
    have := rnd_near rnd hr _ (8 / 10) _ (8 / 10) h8 (by rw [abs_of_pos (by norm_num)])
      (by rw [abs_of_pos (by norm_num)]; norm_num) (by norm_num)
    exact le_trans this (by norm_num)
  have hsum : |s + rnd (8 * rnd (1 / 10)) - (s + 8 / 10)| ≤ 3 / 10 ^ 16 := by
    have e : s + rnd (8 * rnd (1 / 10)) - (s + 8 / 10) = rnd (8 * rnd (1 / 10)) - 8 / 10 := by
      ring
    rw [e]; exact hb
  have hspos : (0 : ℚ) < s + 8 / 10 := by linarith
  have hs12 : |s + 8 / 10| ≤ 12 := by
    rw [abs_of_pos hspos]; linarith
  have hc : |rnd (s + rnd (8 * rnd (1 / 10))) - (s + 8 / 10)| ≤ 2 / 10 ^ 15 := by
    have := rnd_near rnd hr _ (s + 8 / 10) _ 12 hsum hs12
      (by rw [abs_of_pos hspos]; norm_num; linarith) (by norm_num)
    exact le_trans this (by norm_num)
  have hf : |rnd friction - 95 / 100| ≤ 2 / 10 ^ 16 := by
    have := rnd_near rnd hr friction (95 / 100) 0 (95 / 100) (by simp [friction])
      (by rw [abs_of_pos (by norm_num)]) (by rw [abs_of_pos (by norm_num)]; norm_num)
      (by norm_num)
    exact le_trans this (by norm_num)
  have hcabs : |rnd (s + rnd (8 * rnd (1 / 10)))| ≤ 13 := by
    have := abs_add (rnd (s + rnd (8 * rnd (1 / 10))) - (s + 8 / 10)) (s + 8 / 10)
    have e : rnd (s + rnd (8 * rnd (1 / 10))) - (s + 8 / 10) + (s + 8 / 10)
        = rnd (s + rnd (8 * rnd (1 / 10))) := by ring
    rw [e] at this
    have : |rnd (s + rnd (8 * rnd (1 / 10)))| ≤ 2 / 10 ^ 15 + 12 := by linarith
    exact le_trans this (by norm_num)
  have hprod : |rnd (s + rnd (8 * rnd (1 / 10))) * rnd friction - (s + 8 / 10) * (95 / 100)|
      ≤ 5 / 10 ^ 15 := by
    have e : rnd (s + rnd (8 * rnd (1 / 10))) * rnd friction - (s + 8 / 10) * (95 / 100)
        = rnd (s + rnd (8 * rnd (1 / 10))) * (rnd friction - 95 / 100)
          + (rnd (s + rnd (8 * rnd (1 / 10))) - (s + 8 / 10)) * (95 / 100) := by ring
    rw [e]
    have t1 : |rnd (s + rnd (8 * rnd (1 / 10))) * (rnd friction - 95 / 100)|
        ≤ 13 * (2 / 10 ^ 16) := by
      rw [abs_mul]
      exact mul_le_mul hcabs hf (abs_nonneg _) (by norm_num)
    have t2 : |(rnd (s + rnd (8 * rnd (1 / 10))) - (s + 8 / 10)) * (95 / 100)|
        ≤ 2 / 10 ^ 15 * (95 / 100) := by
      rw [abs_mul, abs_of_pos (by norm_num : (0 : ℚ) < 95 / 100)]
      exact mul_le_mul_of_nonneg_right hc (by norm_num)
    have t3 := abs_add (rnd (s + rnd (8 * rnd (1 / 10))) * (rnd friction - 95 / 100))
      ((rnd (s + rnd (8 * rnd (1 / 10))) - (s + 8 / 10)) * (95 / 100))
    have : (13 : ℚ) * (2 / 10 ^ 16) + 2 / 10 ^ 15 * (95 / 100) ≤ 5 / 10 ^ 15 := by norm_num
    linarith
  have hx0pos : (0 : ℚ) < (s + 8 / 10) * (95 / 100) := by positivity
  have hx0 : |(s + 8 / 10) * (95 / 100)| ≤ 12 := by
    rw [abs_of_pos hx0pos]; linarith
  have hfin := rnd_near rnd hr _ ((s + 8 / 10) * (95 / 100)) _ 12 hprod hx0
    (by rw [abs_of_pos hx0pos]; norm_num; linarith) (by norm_num)
  have e2 : (s + 8 * (1 / 10)) * (95 / 100) = (s + 8 / 10) * (95 / 100) := by ring
  rw [e2]
  exact le_trans hfin (by norm_num)

theorem updateCarPhysicsRounded_speed_up (rnd : ℚ → ℚ) (g : Game) (dt : ℚ)
    (hk : (g.Keys "ArrowUp" || g.Keys "KeyW") = true) :
    (g.updateCarPhysicsRounded rnd dt).Car.Speed =
      (if rnd (rnd (g.Car.Speed + rnd (8 * dt)) * rnd friction) > g.Car.MaxSpeed then
        g.Car.MaxSpeed
       else if rnd (rnd (g.Car.Speed + rnd (8 * dt)) * rnd friction) < rnd (-g.Car.MaxSpeed / 2)
        then rnd (-g.Car.MaxSpeed / 2)
       else rnd (rnd (g.Car.Speed + rnd (8 * dt)) * rnd friction)) := by
  simp only [Game.updateCarPhysicsRounded, hk, if_true]

theorem physicsTicks_succ (rnd : ℚ → ℚ) (dt : ℚ) (n : Nat) (g : Game) :
    physicsTicks rnd dt (n + 1) g = (physicsTicks rnd dt n g).updateCarPhysicsRounded rnd dt := by
  unfold physicsTicks
  rw [Function.iterate_succ_apply']

theorem physicsTicks_keys_maxSpeed (rnd : ℚ → ℚ) (dt : ℚ) (n : Nat) (g : Game) :
    (physicsTicks rnd dt n g).Keys = g.Keys ∧
    (physicsTicks rnd dt n g).Car.MaxSpeed = g.Car.MaxSpeed := by
  induction n with
  | zero => exact ⟨rfl, rfl⟩
  | succ n ih =>
    rw [physicsTicks_succ]
    exact ⟨Eq.trans rfl ih.1, Eq.trans rfl ih.2⟩

/-- One accelerating tick at `dt = 0.1` with `MaxSpeed = 10`, in rounded
arithmetic. -/
theorem physicsTicks_speed_step (rnd : ℚ → ℚ) (n : Nat) (g : Game) (hm : g.Car.MaxSpeed = 10)
    (hk : (g.Keys "ArrowUp" || g.Keys "KeyW") = true) :
    (physicsTicks rnd (rnd (1 / 10)) (n + 1) g).Car.Speed =
      (if rnd (rnd ((physicsTicks rnd (rnd (1 / 10)) n g).Car.Speed + rnd (8 * rnd (1 / 10)))
            * rnd friction) > 10 then 10
       else if rnd (rnd ((physicsTicks rnd (rnd (1 / 10)) n g).Car.Speed
            + rnd (8 * rnd (1 / 10))) * rnd friction) < rnd (-10 / 2) then rnd (-10 / 2)
       else rnd (rnd ((physicsTicks rnd (rnd (1 / 10)) n g).Car.Speed + rnd (8 * rnd (1 / 10)))
            * rnd friction)) := by
  have h := physicsTicks_keys_maxSpeed rnd (rnd (1 / 10)) n g
  rw [physicsTicks_succ, updateCarPhysicsRounded_speed_up _ _ _ (by rw [h.1]; exact hk), h.2, hm]

theorem closed_form_bounds (n : Nat) (hn : n ≤ 21) :
    0 ≤ 152 / 10 * (1 - (95 / 100 : ℚ) ^ n) ∧
    152 / 10 * (1 - (95 / 100 : ℚ) ^ n) ≤ 152 / 10 * (1 - (95 / 100 : ℚ) ^ 21) := by
  have h1 : (95 / 100 : ℚ) ^ 21 ≤ (95 / 100) ^ n :=
    pow_le_pow_of_le_one (by norm_num) (by norm_num) hn
  have h2 : (95 / 100 : ℚ) ^ n ≤ 1 := pow_le_one₀ (by norm_num) (by norm_num)
  constructor <;> linarith

/-- In rounded arithmetic the speed after `n <= 20` accelerating ticks is within
`10^-12` of `15.2 * (1 - 0.95^n)`. -/
theorem speed_near_closed_form (rnd : ℚ → ℚ) (hr : ∀ x, 1 / 16 ≤ |x| → |x| ≤ 16 → |rnd x - x| ≤ |x| / 2 ^ 53)
    (g : Game) (hs : g.Car.Speed = 0) (hm : g.Car.MaxSpeed = 10)
    (hk : (g.Keys "ArrowUp" || g.Keys "KeyW") = true) (n : Nat) (hn : n ≤ 20) :
    |(physicsTicks rnd (rnd (1 / 10)) n g).Car.Speed - 152 / 10 * (1 - (95 / 100) ^ n)|
      ≤ 1 / 10 ^ 12 := by
  induction n with
  | zero =>
    have : (physicsTicks rnd (rnd (1 / 10)) 0 g).Car.Speed = 0 := hs
    rw [this]; norm_num
  | succ n ih =>
    have ih1 := ih (by omega)
    have hcn := closed_form_bounds n (by omega)
    have hc21 : 152 / 10 * (1 - (95 / 100 : ℚ) ^ 21) ≤ 101 / 10 := by norm_num
    have hcs := closed_form_bounds (n + 1) (by omega)
    have h20 : (95 / 100 : ℚ) ^ 20 ≤ (95 / 100) ^ (n + 1) :=
      pow_le_pow_of_le_one (by norm_num) (by norm_num) hn
    have hnum : (52 / 152 : ℚ) + 1 / 1000 < (95 / 100) ^ 20 := by norm_num
    have h1 : (95 / 100 : ℚ) ^ (n + 1) ≤ 95 / 100 := by
      have := pow_le_pow_of_le_one (by norm_num : (0 : ℚ) ≤ 95 / 100) (by norm_num)
        (show 1 ≤ n + 1 by omega)
      simpa using this
    rw [abs_le] at ih1
    have hstep := accel_step_near rnd hr (physicsTicks rnd (rnd (1 / 10)) n g).Car.Speed
      (by linarith [ih1.1]) (by linarith [ih1.2])
    rw [← abs_le] at ih1
    have e : ((physicsTicks rnd (rnd (1 / 10)) n g).Car.Speed + 8 * (1 / 10)) * (95 / 100)
          - 152 / 10 * (1 - (95 / 100) ^ (n + 1))
        = 95 / 100 * ((physicsTicks rnd (rnd (1 / 10)) n g).Car.Speed
          - 152 / 10 * (1 - (95 / 100) ^ n)) := by
      rw [pow_succ]; ring
    have hv : |rnd (rnd ((physicsTicks rnd (rnd (1 / 10)) n g).Car.Speed
          + rnd (8 * rnd (1 / 10))) * rnd friction) - 152 / 10 * (1 - (95 / 100) ^ (n + 1))|
        ≤ 1 / 10 ^ 12 := by
      have t := abs_sub_le (rnd (rnd ((physicsTicks rnd (rnd (1 / 10)) n g).Car.Speed
          + rnd (8 * rnd (1 / 10))) * rnd friction))
        (((physicsTicks rnd (rnd (1 / 10)) n g).Car.Speed + 8 * (1 / 10)) * (95 / 100))
        (152 / 10 * (1 - (95 / 100) ^ (n + 1)))
      rw [e, abs_mul, abs_of_pos (by norm_num : (0 : ℚ) < 95 / 100)] at t
      have : (1 : ℚ) / 10 ^ 14 + 95 / 100 * (1 / 10 ^ 12) ≤ 1 / 10 ^ 12 := by norm_num
      nlinarith
    have hlow : |rnd (-10 / 2) - (-10 / 2)| ≤ 1 := by
      have := hr (-10 / 2) (by rw [abs_of_neg (by norm_num)]; norm_num)
        (by rw [abs_of_neg (by norm_num)]; norm_num)
      refine le_trans this ?_
      rw [abs_of_neg (by norm_num)]; norm_num
    rw [physicsTicks_speed_step rnd n g hm hk]
    rw [abs_le] at hv hlow
    rw [if_neg (by linarith [hv.2]), if_neg (by linarith [hv.1, hlow.2])]
    rw [abs_le]
    exact hv

theorem roundHalfEven_eq (y : ℚ) (m : ℤ) (h : |y - m| < 1 / 2) : roundHalfEven y = m := by
  rw [abs_lt] at h
  unfold roundHalfEven
  by_cases hy : (m : ℚ) ≤ y
  · have hf : ⌊y⌋ = m := by
      rw [Int.floor_eq_iff]; constructor <;> linarith [h.1, h.2]
    rw [hf, if_pos (by linarith [h.2])]
  · have hf : ⌊y⌋ = m - 1 := by
      rw [Int.floor_eq_iff]; push_cast; constructor <;> linarith [h.1, h.2]
    rw [hf]
    push_cast
    rw [if_neg (by linarith [h.1]), if_pos (by linarith [h.1])]
    ring

/-- A certificate for one `float64` rounding: `x` lies in the binade of `2^e`
and `m` is the integer nearest to `x / 2^(e-52)`. -/
theorem roundF64_eq (x : ℚ) (e m : ℤ) (h1 : (2 : ℚ) ^ e ≤ |x|) (h2 : |x| < (2 : ℚ) ^ (e + 1))
    (h3 : |x / (2 : ℚ) ^ (e - 52) - m| < 1 / 2) : roundF64 x = m * (2 : ℚ) ^ (e - 52) := by
  have hpos : (0 : ℚ) < |x| := lt_of_lt_of_le (by positivity) h1
  have hx : x ≠ 0 := abs_pos.mp hpos
  have hlog : Int.log 2 |x| = e := by
    have a1 : e ≤ Int.log 2 |x| :=
      (Int.zpow_le_iff_le_log (R := ℚ) (b := 2) (by norm_num) hpos).mp (by simpa using h1)
    have a2 : Int.log 2 |x| < e + 1 :=
      (Int.lt_zpow_iff_log_lt (R := ℚ) (b := 2) (by norm_num) hpos).mp (by simpa using h2)
    omega
  unfold roundF64
  rw [if_neg hx, hlog, roundHalfEven_eq _ m h3]

theorem roundF64_eq_pos (x : ℚ) (e m : ℤ) (h1 : (2 : ℚ) ^ e ≤ x) (h2 : x < (2 : ℚ) ^ (e + 1))
    (h3 : -(1 / 2) < x / (2 : ℚ) ^ (e - 52) - m) (h4 : x / (2 : ℚ) ^ (e - 52) - m < 1 / 2) :
    roundF64 x = m * (2 : ℚ) ^ (e - 52) := by
  have hpos : (0 : ℚ) < x := lt_of_lt_of_le (by positivity) h1
  exact roundF64_eq x e m (by rwa [abs_of_pos hpos]) (by rwa [abs_of_pos hpos])
    (abs_lt.mpr ⟨h3, h4⟩)

theorem roundHalfEven_tie (y : ℚ) (f : ℤ) (hy : y = f + 1 / 2) :
    roundHalfEven y = if f % 2 = 0 then f else f + 1 := by
  have hf : ⌊y⌋ = f := by
    rw [Int.floor_eq_iff]; constructor <;> linarith
  unfold roundHalfEven
  rw [hf, if_neg (by linarith), if_neg (by linarith)]

/-- A certificate for one `float64` rounding of a positive tie: `x / 2^(e-52)`
is `f + 1/2`, and the result takes the even one of `f` and `f + 1`. -/
theorem roundF64_eq_tie (x : ℚ) (e f : ℤ) (h1 : (2 : ℚ) ^ e ≤ x) (h2 : x < (2 : ℚ) ^ (e + 1))
    (h3 : x / (2 : ℚ) ^ (e - 52) = f + 1 / 2) :
    roundF64 x = ((if f % 2 = 0 then f else f + 1 : ℤ) : ℚ) * (2 : ℚ) ^ (e - 52) := by
  have hpos : (0 : ℚ) < x := lt_of_lt_of_le (by positivity) h1
  have hx : x ≠ 0 := ne_of_gt hpos
  have hlog : Int.log 2 |x| = e := by
    rw [abs_of_pos hpos]
    have a1 : e ≤ Int.log 2 x :=
      (Int.zpow_le_iff_le_log (R := ℚ) (b := 2) (by norm_num) hpos).mp (by simpa using h1)
    have a2 : Int.log 2 x < e + 1 :=
      (Int.lt_zpow_iff_log_lt (R := ℚ) (b := 2) (by norm_num) hpos).mp (by simpa using h2)
    omega
  unfold roundF64
  rw [if_neg hx, hlog, roundHalfEven_tie _ f h3]

theorem roundF64_tenth : roundF64 (1 / 10) = 3602879701896397 / 2 ^ 55 := by
  rw [roundF64_eq_pos (1 / 10) (-4) 7205759403792794 (by norm_num) (by norm_num)
    (by norm_num) (by norm_num)]
  norm_num

theorem roundF64_neg_five : roundF64 (-10 / 2) = -5 := by
  rw [roundF64_eq (-10 / 2) 2 (-5629499534213120) (by rw [abs_of_neg (by norm_num)]; norm_num)
    (by rw [abs_of_neg (by norm_num)]; norm_num) (by rw [abs_lt]; constructor <;> norm_num)]
  norm_num

theorem roundF64_eight_tenths :
    roundF64 (8 * (3602879701896397 / 2 ^ 55)) = 3602879701896397 / 2 ^ 52 := by
  rw [roundF64_eq_pos _ (-1) 7205759403792794 (by norm_num) (by norm_num)
      (by norm_num) (by norm_num)]
  norm_num

theorem roundF64_friction : roundF64 friction = 4278419646001971 / 2 ^ 52 := by
  unfold friction
  rw [roundF64_eq_pos _ (-1) 8556839292003942 (by norm_num) (by norm_num)
      (by norm_num) (by norm_num)]
  norm_num

/-- The `float64` trace of the scenario: speed `0`, `MaxSpeed = 10`, accelerate
held, ten ticks of `updateCarPhysics(0.1)` with every operation rounded by
`roundF64`. -/
theorem f64_speed_after_ten_ticks (g : Game) (hs : g.Car.Speed = 0) (hm : g.Car.MaxSpeed = 10)
    (hk : (g.Keys "ArrowUp" || g.Keys "KeyW") = true) :
    (physicsTicks roundF64 (roundF64 (1 / 10)) 10 g).Car.Speed
      = 6867087049509607 / 2 ^ 50 := by
  have h0 : (physicsTicks roundF64 (roundF64 (1 / 10)) 0 g).Car.Speed = 0 := hs
  have c0 : roundF64 (0 + (3602879701896397 / 2 ^ 52))
      = 3602879701896397 / 2 ^ 52 := by
    rw [roundF64_eq_pos _ (-1) 7205759403792794 (by norm_num) (by norm_num)
      (by norm_num) (by norm_num)]
    norm_num
  have v0 : roundF64 ((3602879701896397 / 2 ^ 52) * (4278419646001971 / 2 ^ 52))
      = 3422735716801577 / 2 ^ 52 := by
    rw [roundF64_eq_pos _ (-1) 6845471433603154 (by norm_num) (by norm_num)
      (by norm_num) (by norm_num)]
    norm_num
  have h1 : (physicsTicks roundF64 (roundF64 (1 / 10)) 1 g).Car.Speed
      = 3422735716801577 / 2 ^ 52 := by
    rw [physicsTicks_speed_step roundF64 0 g hm hk, h0, roundF64_tenth,
      roundF64_eight_tenths, c0, roundF64_friction, v0, roundF64_neg_five,
      if_neg (by norm_num), if_neg (by norm_num)]
  have c1 : roundF64 ((3422735716801577 / 2 ^ 52) + (3602879701896397 / 2 ^ 52))
      = 3512807709348987 / 2 ^ 51 := by
    rw [roundF64_eq_pos _ (0) 7025615418697974 (by norm_num) (by norm_num)
      (by norm_num) (by norm_num)]
    norm_num
  have v1 : roundF64 ((3512807709348987 / 2 ^ 51) * (4278419646001971 / 2 ^ 52))
      = 6674334647763075 / 2 ^ 52 := by
    rw [roundF64_eq_pos _ (0) 6674334647763075 (by norm_num) (by norm_num)
      (by norm_num) (by norm_num)]
    norm_num
  have h2 : (physicsTicks roundF64 (roundF64 (1 / 10)) 2 g).Car.Speed
      = 6674334647763075 / 2 ^ 52 := by
    rw [physicsTicks_speed_step roundF64 1 g hm hk, h1, roundF64_tenth,
      roundF64_eight_tenths, c1, roundF64_friction, v1, roundF64_neg_five,
      if_neg (by norm_num), if_neg (by norm_num)]
  have c2 : roundF64 ((6674334647763075 / 2 ^ 52) + (3602879701896397 / 2 ^ 52))
      = 642325896853717 / 2 ^ 48 := by
    rw [roundF64_eq_pos _ (1) 5138607174829736 (by norm_num) (by norm_num)
      (by norm_num) (by norm_num)]
    norm_num
  have v2 : roundF64 ((642325896853717 / 2 ^ 48) * (4278419646001971 / 2 ^ 52))
      = 4881676816088249 / 2 ^ 51 := by
    rw [roundF64_eq_pos _ (1) 4881676816088249 (by norm_num) (by norm_num)
      (by norm_num) (by norm_num)]
    norm_num
  have h3 : (physicsTicks roundF64 (roundF64 (1 / 10)) 3 g).Car.Speed
      = 4881676816088249 / 2 ^ 51 := by
    rw [physicsTicks_speed_step roundF64 2 g hm hk, h2, roundF64_tenth,
      roundF64_eight_tenths, c2, roundF64_friction, v2, roundF64_neg_five,
      if_neg (by norm_num), if_neg (by norm_num)]
  have c3 : roundF64 ((4881676816088249 / 2 ^ 51) + (3602879701896397 / 2 ^ 52))
      = 208847395844889 / 2 ^ 46 := by
    rw [roundF64_eq_tie _ (1) 6683116667036447 (by norm_num) (by norm_num)
      (by norm_num)]
    norm_num
  have v3 : roundF64 ((208847395844889 / 2 ^ 46) * (4278419646001971 / 2 ^ 52))
      = 6348960833684625 / 2 ^ 51 := by
    rw [roundF64_eq_pos _ (1) 6348960833684625 (by norm_num) (by norm_num)
      (by norm_num) (by norm_num)]
    norm_num
  have h4 : (physicsTicks roundF64 (roundF64 (1 / 10)) 4 g).Car.Speed
      = 6348960833684625 / 2 ^ 51 := by
    rw [physicsTicks_speed_step roundF64 3 g hm hk, h3, roundF64_tenth,
      roundF64_eight_tenths, c3, roundF64_friction, v3, roundF64_neg_five,
      if_neg (by norm_num), if_neg (by norm_num)]
  have c4 : roundF64 ((6348960833684625 / 2 ^ 51) + (3602879701896397 / 2 ^ 52))
      = 1018800085579103 / 2 ^ 48 := by
    rw [roundF64_eq_tie _ (1) 8150400684632823 (by norm_num) (by norm_num)
      (by norm_num)]
    norm_num
  have v4 : roundF64 ((1018800085579103 / 2 ^ 48) * (4278419646001971 / 2 ^ 52))
      = 3871440325200591 / 2 ^ 50 := by
    rw [roundF64_eq_pos _ (1) 7742880650401182 (by norm_num) (by norm_num)
      (by norm_num) (by norm_num)]
    norm_num
  have h5 : (physicsTicks roundF64 (roundF64 (1 / 10)) 5 g).Car.Speed
      = 3871440325200591 / 2 ^ 50 := by
    rw [physicsTicks_speed_step roundF64 4 g hm hk, h4, roundF64_tenth,
      roundF64_eight_tenths, c4, roundF64_friction, v4, roundF64_neg_five,
      if_neg (by norm_num), if_neg (by norm_num)]
  have c5 : roundF64 ((3871440325200591 / 2 ^ 50) + (3602879701896397 / 2 ^ 52))
      = 2386080125337345 / 2 ^ 49 := by
    rw [roundF64_eq_pos _ (2) 4772160250674690 (by norm_num) (by norm_num)
      (by norm_num) (by norm_num)]
    norm_num
  have v5 : roundF64 ((2386080125337345 / 2 ^ 49) * (4278419646001971 / 2 ^ 52))
      = 4533552238140955 / 2 ^ 50 := by
    rw [roundF64_eq_pos _ (2) 4533552238140955 (by norm_num) (by norm_num)
      (by norm_num) (by norm_num)]
    norm_num
  have h6 : (physicsTicks roundF64 (roundF64 (1 / 10)) 6 g).Car.Speed
      = 4533552238140955 / 2 ^ 50 := by
    rw [physicsTicks_speed_step roundF64 5 g hm hk, h5, roundF64_tenth,
      roundF64_eight_tenths, c5, roundF64_friction, v5, roundF64_neg_five,
      if_neg (by norm_num), if_neg (by norm_num)]
  have c6 : roundF64 ((4533552238140955 / 2 ^ 50) + (3602879701896397 / 2 ^ 52))
      = 2717136081807527 / 2 ^ 49 := by
    rw [roundF64_eq_pos _ (2) 5434272163615054 (by norm_num) (by norm_num)
      (by norm_num) (by norm_num)]
    norm_num
  have v6 : roundF64 ((2717136081807527 / 2 ^ 49) * (4278419646001971 / 2 ^ 52))
      = 5162558555434301 / 2 ^ 50 := by
    rw [roundF64_eq_pos _ (2) 5162558555434301 (by norm_num) (by norm_num)
      (by norm_num) (by norm_num)]
    norm_num
  have h7 : (physicsTicks roundF64 (roundF64 (1 / 10)) 7 g).Car.Speed
      = 5162558555434301 / 2 ^ 50 := by
    rw [physicsTicks_speed_step roundF64 6 g hm hk, h6, roundF64_tenth,
      roundF64_eight_tenths, c6, roundF64_friction, v6, roundF64_neg_five,
      if_neg (by norm_num), if_neg (by norm_num)]
  have c7 : roundF64 ((5162558555434301 / 2 ^ 50) + (3602879701896397 / 2 ^ 52))
      = 378954905056775 / 2 ^ 46 := by
    rw [roundF64_eq_pos _ (2) 6063278480908400 (by norm_num) (by norm_num)
      (by norm_num) (by norm_num)]
    norm_num
  have v7 : roundF64 ((378954905056775 / 2 ^ 46) * (4278419646001971 / 2 ^ 52))
      = 1440028639215745 / 2 ^ 48 := by
    rw [roundF64_eq_pos _ (2) 5760114556862980 (by norm_num) (by norm_num)
      (by norm_num) (by norm_num)]
    norm_num
  have h8 : (physicsTicks roundF64 (roundF64 (1 / 10)) 8 g).Car.Speed
      = 1440028639215745 / 2 ^ 48 := by
    rw [physicsTicks_speed_step roundF64 7 g hm hk, h7, roundF64_tenth,
      roundF64_eight_tenths, c7, roundF64_friction, v7, roundF64_neg_five,
      if_neg (by norm_num), if_neg (by norm_num)]
  have c8 : roundF64 ((1440028639215745 / 2 ^ 48) + (3602879701896397 / 2 ^ 52))
      = 6660834482337079 / 2 ^ 50 := by
    rw [roundF64_eq_pos _ (2) 6660834482337079 (by norm_num) (by norm_num)
      (by norm_num) (by norm_num)]
    norm_num
  have v8 : roundF64 ((6660834482337079 / 2 ^ 50) * (4278419646001971 / 2 ^ 52))
      = 6327792758220225 / 2 ^ 50 := by
    rw [roundF64_eq_pos _ (2) 6327792758220225 (by norm_num) (by norm_num)
      (by norm_num) (by norm_num)]
    norm_num
  have h9 : (physicsTicks roundF64 (roundF64 (1 / 10)) 9 g).Car.Speed
      = 6327792758220225 / 2 ^ 50 := by
    rw [physicsTicks_speed_step roundF64 8 g hm hk, h8, roundF64_tenth,
      roundF64_eight_tenths, c8, roundF64_friction, v8, roundF64_neg_five,
      if_neg (by norm_num), if_neg (by norm_num)]
  have c9 : roundF64 ((6327792758220225 / 2 ^ 50) + (3602879701896397 / 2 ^ 52))
      = 1807128170923581 / 2 ^ 48 := by
    rw [roundF64_eq_pos _ (2) 7228512683694324 (by norm_num) (by norm_num)
      (by norm_num) (by norm_num)]
    norm_num
  have v9 : roundF64 ((1807128170923581 / 2 ^ 48) * (4278419646001971 / 2 ^ 52))
      = 6867087049509607 / 2 ^ 50 := by
    rw [roundF64_eq_pos _ (2) 6867087049509607 (by norm_num) (by norm_num)
      (by norm_num) (by norm_num)]
    norm_num
  have h10 : (physicsTicks roundF64 (roundF64 (1 / 10)) 10 g).Car.Speed
      = 6867087049509607 / 2 ^ 50 := by
    rw [physicsTicks_speed_step roundF64 9 g hm hk, h9, roundF64_tenth,
      roundF64_eight_tenths, c9, roundF64_friction, v9, roundF64_neg_five,
      if_neg (by norm_num), if_neg (by norm_num)]
  exact h10

/-- In rounded arithmetic the clamp holds the speed at `MaxSpeed = 10` from
tick 21 on. -/
theorem speed_clamped (rnd : ℚ → ℚ) (hr : ∀ x, 1 / 16 ≤ |x| → |x| ≤ 16 → |rnd x - x| ≤ |x| / 2 ^ 53)
    (g : Game) (hs : g.Car.Speed = 0) (hm : g.Car.MaxSpeed = 10)
    (hk : (g.Keys "ArrowUp" || g.Keys "KeyW") = true) (n : Nat) (hn : 21 ≤ n) :
    (physicsTicks rnd (rnd (1 / 10)) n g).Car.Speed = 10 := by
  induction n with
  | zero => omega
  | succ n ih =>
    rw [physicsTicks_speed_step rnd n g hm hk]
    by_cases h : n = 20
    · subst h
      have hnear := speed_near_closed_form rnd hr g hs hm hk 20 (le_refl _)
      have hlo : (9 : ℚ) ≤ 152 / 10 * (1 - (95 / 100) ^ 20) - 1 / 10 ^ 12 := by norm_num
      have hhi : 152 / 10 * (1 - (95 / 100 : ℚ) ^ 20) + 1 / 10 ^ 12 ≤ 11 := by norm_num
      have h21 : (10 : ℚ) + 1 / 100
          < (152 / 10 * (1 - (95 / 100) ^ 20) - 1 / 10 ^ 12 + 8 * (1 / 10)) * (95 / 100) := by
        norm_num
      rw [abs_le] at hnear
      have hstep := accel_step_near rnd hr (physicsTicks rnd (rnd (1 / 10)) 20 g).Car.Speed
        (by linarith [hnear.1]) (by linarith [hnear.2])
      rw [abs_le] at hstep
      rw [if_pos (by linarith [hstep.1, hnear.1])]
    · have ihn := ih (by omega)
      have hstep := accel_step_near rnd hr (physicsTicks rnd (rnd (1 / 10)) n g).Car.Speed
        (by rw [ihn]; norm_num) (by rw [ihn]; norm_num)
      rw [abs_le, ihn] at hstep
      rw [ihn, if_pos (by linarith [hstep.1])]

/-- C10 (as stated, refuted), in `float64` arithmetic: from the
start-of-session car with `ArrowUp` held, at `dt = 0.1` the speed after 21
ticks and after 22 ticks is exactly `MaxSpeed = 10`, so the clamp is reached and
the speed no longer increases; and after the 10 ticks of the scenario the speed
is `6867087049509607 / 2^50` (6.099198523576638), not `15.2 * (1 - 0.95^10)`. -/
theorem clamp_reached_at_tick_21 :
    ({ NewGame with Keys := upKey } : Game).Car.Speed = 0 ∧
    ({ NewGame with Keys := upKey } : Game).Car.MaxSpeed = 10 ∧
    (physicsTicks roundF64 (roundF64 (1 / 10)) 21 { NewGame with Keys := upKey }).Car.Speed
      = 10 ∧
    (physicsTicks roundF64 (roundF64 (1 / 10)) 22 { NewGame with Keys := upKey }).Car.Speed
      = 10 ∧
    ¬ ((physicsTicks roundF64 (roundF64 (1 / 10)) 21 { NewGame with Keys := upKey }).Car.Speed
        < (physicsTicks roundF64 (roundF64 (1 / 10)) 22
            { NewGame with Keys := upKey }).Car.Speed) ∧
    ¬ ((physicsTicks roundF64 (roundF64 (1 / 10)) 21 { NewGame with Keys := upKey }).Car.Speed
        < ({ NewGame with Keys := upKey } : Game).Car.MaxSpeed) ∧
    (physicsTicks roundF64 (roundF64 (1 / 10)) 10 { NewGame with Keys := upKey }).Car.Speed
      = 6867087049509607 / 2 ^ 50 ∧
    (physicsTicks roundF64 (roundF64 (1 / 10)) 10 { NewGame with Keys := upKey }).Car.Speed
      ≠ 152 / 10 * (1 - (95 / 100) ^ 10) := by
  have h21 := speed_clamped roundF64 (fun x _ _ => roundF64_error x) { NewGame with Keys := upKey } rfl rfl
    (by decide) 21 (le_refl _)
  have h22 := speed_clamped roundF64 (fun x _ _ => roundF64_error x) { NewGame with Keys := upKey } rfl rfl
    (by decide) 22 (by omega)
  have h10 := f64_speed_after_ten_ticks { NewGame with Keys := upKey } rfl rfl (by decide)
  refine ⟨rfl, rfl, h21, h22, ?_, ?_, h10, ?_⟩
  · rw [h21, h22]; exact lt_irrefl _
  · rw [h21]
    show ¬ ((10 : ℚ) < 10)
    exact lt_irrefl _
  · rw [h10]; norm_num

/-- C10 (amended): starting from `Car.Speed = 0` with `MaxSpeed = 10` and
accelerate held, at `dt = 0.1`, in `float64` arithmetic (`rnd` is any rounding
with relative error at most `2^-53` on magnitudes between `1/16` and `16`, as
round-to-nearest has): after `n <= 20` ticks of `updateCarPhysics` the speed is
within `10^-12` of `15.2 * (1 - 0.95^n)` and below `MaxSpeed`; each of the
first 21 ticks strictly increases it; after the 10 ticks of the scenario it is
within `10^-12` of `15.2 * (1 - 0.95^10)`, between `6.09` and `6.11`; from tick
21 on the clamp holds it at exactly `MaxSpeed`; and the fixed point of the
exact recurrence `s = (s + 8.0 * 0.1) * friction` is `15.2`, above
`MaxSpeed`. -/
theorem accelerating_speed (rnd : ℚ → ℚ) (hr : ∀ x, 1 / 16 ≤ |x| → |x| ≤ 16 → |rnd x - x| ≤ |x| / 2 ^ 53)
    (g : Game) (hs : g.Car.Speed = 0) (hm : g.Car.MaxSpeed = 10)
    (hk : (g.Keys "ArrowUp" || g.Keys "KeyW") = true) :
    (∀ n, n ≤ 20 →
      |(physicsTicks rnd (rnd (1 / 10)) n g).Car.Speed - 152 / 10 * (1 - (95 / 100) ^ n)|
        ≤ 1 / 10 ^ 12 ∧
      (physicsTicks rnd (rnd (1 / 10)) n g).Car.Speed < g.Car.MaxSpeed) ∧
    (∀ n, n ≤ 20 →
      (physicsTicks rnd (rnd (1 / 10)) n g).Car.Speed
        < (physicsTicks rnd (rnd (1 / 10)) (n + 1) g).Car.Speed) ∧
    (|(physicsTicks rnd (rnd (1 / 10)) 10 g).Car.Speed - 152 / 10 * (1 - (95 / 100) ^ 10)|
        ≤ 1 / 10 ^ 12 ∧
      609 / 100 < (physicsTicks rnd (rnd (1 / 10)) 10 g).Car.Speed ∧
      (physicsTicks rnd (rnd (1 / 10)) 10 g).Car.Speed < 611 / 100) ∧
    (∀ n, 21 ≤ n → (physicsTicks rnd (rnd (1 / 10)) n g).Car.Speed = g.Car.MaxSpeed) ∧
    ((∀ s : ℚ, s = (s + 8 * (1 / 10)) * friction ↔ s = 152 / 10) ∧
      g.Car.MaxSpeed < 152 / 10) := by
  have hnum : (52 / 152 : ℚ) + 1 / 1000 < (95 / 100) ^ 20 := by norm_num
  have hnear := speed_near_closed_form rnd hr g hs hm hk
  have hlt : ∀ n, n ≤ 20 → (physicsTicks rnd (rnd (1 / 10)) n g).Car.Speed < 10 := by
    intro n hn
    have h20 : (95 / 100 : ℚ) ^ 20 ≤ (95 / 100) ^ n :=
      pow_le_pow_of_le_one (by norm_num) (by norm_num) hn
    have := hnear n hn
    rw [abs_le] at this
    linarith [this.2]
  refine ⟨fun n hn => ⟨hnear n hn, by rw [hm]; exact hlt n hn⟩, ?_, ?_, ?_, ?_, ?_⟩
  · intro n hn
    by_cases h : n = 20
    · subst h
      rw [speed_clamped rnd hr g hs hm hk 21 (le_refl _)]
      exact hlt 20 (le_refl _)
    · have a := hnear n hn
      have b := hnear (n + 1) (by omega)
      rw [abs_le] at a b
      have h20 : (95 / 100 : ℚ) ^ 20 ≤ (95 / 100) ^ n :=
        pow_le_pow_of_le_one (by norm_num) (by norm_num) hn
      have e : (95 / 100 : ℚ) ^ (n + 1) = (95 / 100) ^ n * (95 / 100) := pow_succ _ _
      linarith [a.2, b.1]
  · have a := hnear 10 (by omega)
    refine ⟨a, ?_, ?_⟩
    · rw [abs_le] at a
      have : (609 / 100 : ℚ) + 1 / 10 ^ 12 < 152 / 10 * (1 - (95 / 100) ^ 10) := by norm_num
      linarith [a.1]
    · rw [abs_le] at a
      have : 152 / 10 * (1 - (95 / 100 : ℚ) ^ 10) + 1 / 10 ^ 12 < 611 / 100 := by norm_num
      linarith [a.2]
  · intro n hn
    rw [hm]
    exact speed_clamped rnd hr g hs hm hk n hn
  · intro s
    unfold friction
    constructor <;> intro h <;> linarith
  · rw [hm]; norm_num

/-- C10 (amended), the scenario in `float64`: the start-of-session car,
`ArrowUp` held, ten ticks at `dt = 0.1`, rounding `roundF64`. -/
theorem accelerating_speed_witness :
    ({ NewGame with Keys := upKey } : Game).Car.Speed = 0 ∧
    ({ NewGame with Keys := upKey } : Game).Car.MaxSpeed = 10 ∧
    (upKey "ArrowUp" || upKey "KeyW") = true ∧
    609 / 100
      < (physicsTicks roundF64 (roundF64 (1 / 10)) 10 { NewGame with Keys := upKey }).Car.Speed ∧
    (physicsTicks roundF64 (roundF64 (1 / 10)) 10 { NewGame with Keys := upKey }).Car.Speed
      < 611 / 100 :=
  ⟨rfl, rfl, by decide,
   (accelerating_speed roundF64 (fun x _ _ => roundF64_error x) { NewGame with Keys := upKey } rfl rfl
      (by decide)).2.2.1.2⟩

end GoodDrive
